import Mathlib

/-!
# Verification of the `ServerSidePublishEngine` (src/lib/findservers.js)

Shallow embedding of the server-side publish engine of this repository.
Queues are Lean lists (JS arrays used as FIFOs: `push` appends, `shift`
removes the head).  Callback invocation — an effect in the JS source — is
embedded as an append-only `log` of `(callbackId, PublishResponse)` pairs;
each publish-request record carries a fresh `callbackId` so that "the
callback of record r was invoked" becomes "an entry with r's id is in the
log".  Wall-clock reads (`Date.now()`) become explicit `now : Nat`
parameters.  Behaviour of `Subscription` objects (external collaborators
of the engine) is either recorded as inert data on a `Subscr` record or,
where the engine's control flow depends on it, modelled from the spec —
each such definition is marked `Modelled from the spec:`.
-/

namespace PublishEngine

/-- Status codes observed by the publish engine (lib/datamodel/opcua_status_code). -/
inductive StatusCode where
  | Good
  | BadSubscriptionIdInvalid
  | BadSessionClosed
  | BadNoSubscription
  | BadTooManyPublishRequests
  | BadTimeout
  | BadSecureChannelClosed
  | GoodSubscriptionTransferred
  deriving DecidableEq, Repr

/-- `SubscriptionState` enumeration (lib/server/SubscriptionState). -/
inductive SubState where
  | CREATING
  | NORMAL
  | LATE
  | KEEPALIVE
  | CLOSED
  deriving DecidableEq, Repr

/-- Parameter record passed to `send_notification_message`
(`{subscriptionId, sequenceNumber, notificationData, moreNotifications}`). -/
structure NotifParam where
  subscriptionId : Nat
  sequenceNumber : Nat
  notificationData : List Nat
  moreNotifications : Bool
  deriving DecidableEq, Repr

/-- Engine-facing view of a `Subscription` collaborator: the read-only
properties the engine consults, plus the queue of notification messages a
closed subscription still has to drain (`_publish_pending_notifications`). -/
structure Subscr where
  id : Nat
  priority : Nat
  timeToExpiration : Nat
  messageSent : Bool
  publishingEnabled : Bool
  state : SubState
  availableSequenceNumbers : List Nat
  pendingNotifications : List NotifParam
  deriving DecidableEq, Repr

/-- `subscription.hasPendingNotifications` : true iff the subscription still
holds notification messages to deliver. -/
def Subscr.hasPendingNotifications (s : Subscr) : Bool :=
  !s.pendingNotifications.isEmpty

/-- `request.requestHeader` : the fields the engine reads. -/
structure RequestHeader where
  requestHandle : Nat
  timeoutHint : Nat
  deriving DecidableEq, Repr

/-- A decoded `PublishRequest`.  `received_time` and `timeout_time` are the
fields `prepare_timeout_info` writes onto the request object; they are 0
until `prepare_timeout_info` runs (JS: `undefined`, which is falsy exactly
like 0 in the `timeout_filter` test). -/
structure PublishRequest where
  requestHeader : RequestHeader
  subscriptionAcknowledgements : List (Nat × Nat)
  received_time : Nat := 0
  timeout_time : Nat := 0
  deriving DecidableEq, Repr

/-- The `publishData` record `{ request, results, callback }`; the callback
is embedded as a unique identifier. -/
structure PublishData where
  request : PublishRequest
  results : List StatusCode
  callbackId : Nat
  deriving DecidableEq, Repr

/-- `NotificationMessage { sequenceNumber, publishTime, notificationData }`. -/
structure NotificationMessage where
  sequenceNumber : Nat
  publishTime : Nat
  notificationData : List Nat
  deriving DecidableEq, Repr

/-- A `PublishResponse` with the fields the engine populates.
`serviceResult` lives in `responseHeader` in the source; flattened here. -/
structure PublishResponse where
  serviceResult : StatusCode := StatusCode.Good
  subscriptionId : Nat := 0
  availableSequenceNumbers : List Nat := []
  moreNotifications : Bool := false
  notificationMessage : Option NotificationMessage := none
  results : List StatusCode := []
  requestHandle : Nat := 0
  deriving DecidableEq, Repr

/-- The engine state (`class ServerSidePublishEngine`).  `log` is the
instrumentation recording every callback invocation, in order. -/
structure ServerSidePublishEngine where
  publish_request_queue : List PublishData := []
  publish_response_queue : List PublishResponse := []
  subscriptions : List Subscr := []
  closed_subscriptions : List Subscr := []
  maxPublishRequestInQueue : Nat := 100
  isSessionClosed : Bool := false
  log : List (Nat × PublishResponse) := []
  nextCallbackId : Nat := 0
  deriving DecidableEq, Repr

namespace ServerSidePublishEngine

/-- The constructor: `maxPublishRequestInQueue = options.maxPublishRequestInQueue || 100`
(a `0`/absent option is falsy and falls back to 100). -/
def mkEngine (optionsMaxPublishRequestInQueue : Nat) : ServerSidePublishEngine :=
  { maxPublishRequestInQueue :=
      if optionsMaxPublishRequestInQueue = 0 then 100 else optionsMaxPublishRequestInQueue }

/-- `get pendingPublishRequestCount()`. -/
def pendingPublishRequestCount (e : ServerSidePublishEngine) : Nat :=
  e.publish_request_queue.length

/-- `get subscriptionCount()`. -/
def subscriptionCount (e : ServerSidePublishEngine) : Nat :=
  e.subscriptions.length

/-- `getSubscriptionById(subscriptionId)`. -/
def getSubscriptionById (e : ServerSidePublishEngine) (subscriptionId : Nat) : Option Subscr :=
  e.subscriptions.find? (fun s => s.id == subscriptionId)

/-- Modelled from the spec: `Subscription.acknowledgeNotification(seqnum)`
(lib/server/Subscription, not under src/) returns a per-acknowledgement
StatusCode; its value never affects the engine's control flow, so it is
modelled as `Good`. -/
def acknowledgeNotification (_s : Subscr) (_sequenceNumber : Nat) : StatusCode :=
  StatusCode.Good

/-- `process_subscriptionAcknowledgements(subscriptionAcknowledgements)`. -/
def process_subscriptionAcknowledgements (e : ServerSidePublishEngine)
    (subscriptionAcknowledgements : List (Nat × Nat)) : List StatusCode :=
  subscriptionAcknowledgements.map (fun a =>
    match e.getSubscriptionById a.1 with
    | none => StatusCode.BadSubscriptionIdInvalid
    | some subscription => acknowledgeNotification subscription a.2)

/-- `send_response_for_request(publishData, response)` : copies the ack
results and the request handle onto the response, then invokes the
callback (recorded on the log). -/
def answered (publishData : PublishData) (response : PublishResponse) :
    Nat × PublishResponse :=
  (publishData.callbackId,
   { response with
       results := publishData.results,
       requestHandle := publishData.request.requestHeader.requestHandle })

def send_response_for_request (e : ServerSidePublishEngine)
    (publishData : PublishData) (response : PublishResponse) : ServerSidePublishEngine :=
  { e with log := e.log ++ [answered publishData response] }

/-- The status-only `PublishResponse({responseHeader: {serviceResult: statusCode}})`. -/
def errorResponse (statusCode : StatusCode) : PublishResponse :=
  { serviceResult := statusCode }

/-- `send_error_for_request(publishData, statusCode)`. -/
def send_error_for_request (e : ServerSidePublishEngine)
    (publishData : PublishData) (statusCode : StatusCode) : ServerSidePublishEngine :=
  e.send_response_for_request publishData (errorResponse statusCode)

/-- `_cancelPendingPublishRequest(statusCode)` : answer every queued record
with a status-only response, then clear the queue. -/
def cancelPendingWith (e : ServerSidePublishEngine) (statusCode : StatusCode) :
    ServerSidePublishEngine :=
  let e2 := e.publish_request_queue.foldl
    (fun acc publishData => acc.send_error_for_request publishData statusCode) e
  { e2 with publish_request_queue := [] }

/-- `cancelPendingPublishRequestBeforeChannelChange()`. -/
def cancelPendingPublishRequestBeforeChannelChange (e : ServerSidePublishEngine) :
    ServerSidePublishEngine :=
  e.cancelPendingWith StatusCode.BadSecureChannelClosed

/-- `cancelPendingPublishRequest()` (asserts `subscriptionCount === 0` at the call sites). -/
def cancelPendingPublishRequest (e : ServerSidePublishEngine) : ServerSidePublishEngine :=
  e.cancelPendingWith StatusCode.BadNoSubscription

/-- `onSessionClose()`. -/
def onSessionClose (e : ServerSidePublishEngine) : ServerSidePublishEngine :=
  { e with isSessionClosed := true }.cancelPendingWith StatusCode.BadSessionClosed

/-- The `PublishResponse` built inside `send_notification_message` : empty
`availableSequenceNumbers` when the subscription id is unknown. -/
def notificationResponse (e : ServerSidePublishEngine) (param : NotifParam) (now : Nat) :
    PublishResponse :=
  { subscriptionId := param.subscriptionId,
    availableSequenceNumbers :=
      match e.getSubscriptionById param.subscriptionId with
      | some subscription => subscription.availableSequenceNumbers
      | none => [],
    moreNotifications := param.moreNotifications,
    notificationMessage := some
      { sequenceNumber := param.sequenceNumber,
        publishTime := now,
        notificationData := param.notificationData } }

/-- `send_notification_message(param, force)` : build the response, then
pair it with the oldest pending request, or stash it when no request
waits.  Precondition in source:
`assert(pendingPublishRequestCount > 0 || force)`. -/
def send_notification_message (e : ServerSidePublishEngine)
    (param : NotifParam) (_force : Bool) (now : Nat) : ServerSidePublishEngine :=
  let response := e.notificationResponse param now
  match e.publish_request_queue with
  | [] => { e with publish_response_queue := e.publish_response_queue ++ [response] }
  | publishData :: rest =>
      { e with publish_request_queue := rest }.send_response_for_request publishData response

/-- `_process_pending_publish_response(publishData)` : when a stashed
response exists, pop it and answer the incoming record with it. -/
def _process_pending_publish_response (e : ServerSidePublishEngine)
    (publishData : PublishData) : ServerSidePublishEngine × Bool :=
  match e.publish_response_queue with
  | [] => (e, false)
  | response :: rest =>
      ({ e with publish_response_queue := rest }.send_response_for_request publishData response,
       true)

/-- Modelled from the spec: `Subscription._publish_pending_notifications`
(lib/server/Subscription, not under src/).  Per the spec a closed
subscription "parks on the closed-drain list until those notifications are
delivered to future Publish requests" and the closed-drain scenario S4
delivers one retained message per publish response; the engine-side shift
discards the subscription after one drain call, so the drain emits every
pending message through `send_notification_message(..., force=true)`:
messages beyond the waiting requests are stashed on the response queue. -/
def publishAllPending (e : ServerSidePublishEngine) (now : Nat) :
    List NotifParam → ServerSidePublishEngine
  | [] => e
  | p :: rest => publishAllPending (e.send_notification_message p true now) now rest

/-- `_feed_closed_subscription()` : nothing to do without a pending request;
otherwise shift the head of the closed-drain list and, when it still has
pending notifications, publish them (returning `true`). -/
def _feed_closed_subscription (e : ServerSidePublishEngine) (now : Nat) :
    ServerSidePublishEngine × Bool :=
  if e.pendingPublishRequestCount = 0 then (e, false)
  else
    match e.closed_subscriptions with
    | [] => (e, false)
    | closed_subscription :: rest =>
        let e2 := { e with closed_subscriptions := rest }
        if closed_subscription.hasPendingNotifications then
          (publishAllPending e2 now closed_subscription.pendingNotifications, true)
        else (e2, false)

/-- The `while (self._feed_closed_subscription()) { }` loop in
`on_close_subscription`, run on explicit fuel.  Every iteration that
returns `true` shifts one closed subscription, so
`closed_subscriptions.length + 1` units of fuel always reach the loop's
exit condition (theorem `drainClosedLoop_exits` below certifies this). -/
def drainClosedLoopFuel : Nat → ServerSidePublishEngine → Nat → ServerSidePublishEngine
  | 0, e, _ => e
  | Nat.succ n, e, now =>
      let r := e._feed_closed_subscription now
      if r.2 then drainClosedLoopFuel n r.1 now else r.1

def drainClosedLoop (e : ServerSidePublishEngine) (now : Nat) : ServerSidePublishEngine :=
  drainClosedLoopFuel (e.closed_subscriptions.length + 1) e now

/-- `compare_subscriptions(s1, s2)` : the JS comparator.  Note that it
RETURNS A BOOLEAN: after the `ToNumber` coercion `Array.prototype.sort`
only ever sees 1 or 0, never a negative value, so it is not a consistent
comparison function in the sense of ECMA-262. -/
def compare_subscriptions (s1 s2 : Subscr) : Bool :=
  if s1.priority = s2.priority then decide (s1.timeToExpiration < s2.timeToExpiration)
  else decide (s1.priority > s2.priority)

/-- Stable ascending insertion by `timeToExpiration`
(`_.sortBy("timeToExpiration")`). -/
def insertByTTE (x : Subscr) : List Subscr → List Subscr
  | [] => [x]
  | y :: ys =>
      if x.timeToExpiration < y.timeToExpiration then x :: y :: ys
      else y :: insertByTTE x ys

def sortByTimeToExpiration (l : List Subscr) : List Subscr :=
  l.foldr insertByTTE []

/-- `findSubscriptionWaitingForFirstPublish()`. -/
def findSubscriptionWaitingForFirstPublish (e : ServerSidePublishEngine) : Option Subscr :=
  let subscriptions_waiting_for_first_reply :=
    e.subscriptions.filter (fun subscription =>
      !subscription.messageSent && subscription.state == SubState.LATE)
  match sortByTimeToExpiration subscriptions_waiting_for_first_reply with
  | [] => none
  | s :: _ => some s

/-- `findLateSubscriptions()`. -/
def findLateSubscriptions (e : ServerSidePublishEngine) : List Subscr :=
  e.subscriptions.filter (fun subscription =>
    subscription.state == SubState.LATE && subscription.publishingEnabled)

/-- `findLateSubscriptionSortedByPriority()` : the source calls
`late_subscriptions.sort(compare_subscriptions)` and returns the LAST
element.  Since `compare_subscriptions` returns booleans, the comparator
never yields a negative number; ECMA-262 makes the sort order
implementation-defined for such an inconsistent comparator, and under V8
(the engine Node runs this program on) no element ever compares below
another, so the sort leaves the array unchanged.  The embedding follows
that actual behaviour: the call returns the LAST late subscription in map
order, irrespective of priority. -/
def findLateSubscriptionSortedByPriority (e : ServerSidePublishEngine) : Option Subscr :=
  let late_subscriptions := e.findLateSubscriptions
  if late_subscriptions.length = 0 then none
  else late_subscriptions.getLast?

/-- Modelled from the spec: `Subscription.process_subscription()`
(lib/server/Subscription, not under src/) "produces zero or one
NotificationMessage; on production, calls back into the engine via
`send_notification_message`".  The choice is an oracle parameter. -/
def process_subscription (e : ServerSidePublishEngine) (_s : Subscr)
    (emit : Option NotifParam) (now : Nat) : ServerSidePublishEngine :=
  match emit with
  | none => e
  | some param => e.send_notification_message param false now

/-- `_feed_late_subscription()` : also returns which subscription's
`process_subscription()` was invoked, if any. -/
def _feed_late_subscription (e : ServerSidePublishEngine)
    (emit : Option NotifParam) (now : Nat) : ServerSidePublishEngine × Option Subscr :=
  if e.pendingPublishRequestCount = 0 then (e, none)
  else
    match e.findSubscriptionWaitingForFirstPublish.orElse
        (fun _ => e.findLateSubscriptionSortedByPriority) with
    | some starving_subscription =>
        (e.process_subscription starving_subscription emit now, some starving_subscription)
    | none => (e, none)

/-- `_handle_too_many_requests()`. -/
def _handle_too_many_requests (e : ServerSidePublishEngine) : ServerSidePublishEngine :=
  if e.pendingPublishRequestCount > e.maxPublishRequestInQueue then
    match e.publish_request_queue with
    | [] => e
    | publishData :: rest =>
        { e with publish_request_queue := rest }.send_error_for_request publishData
          StatusCode.BadTooManyPublishRequests
  else e

/-- `prepare_timeout_info(request)` : record the received time and derive
`timeout_time = received_time + timeoutHint` when the hint is positive,
else 0 (no deadline). -/
def prepare_timeout_info (request : PublishRequest) (now : Nat) : PublishRequest :=
  { request with
      received_time := now,
      timeout_time :=
        if request.requestHeader.timeoutHint > 0 then now + request.requestHeader.timeoutHint
        else 0 }

/-- The tail of `_on_PublishRequest`'s `else` branch up to (excluding) the
too-many check: prepare timeout info, enqueue, feed the late and the closed
subscriptions. -/
def admissionStage (e : ServerSidePublishEngine) (publishData : PublishData)
    (emit : Option NotifParam) (now : Nat) : ServerSidePublishEngine :=
  let publishData := { publishData with request := prepare_timeout_info publishData.request now }
  let e1 := { e with publish_request_queue := e.publish_request_queue ++ [publishData] }
  let e2 := (e1._feed_late_subscription emit now).1
  (e2._feed_closed_subscription now).1

/-- The `publishData` record formed at the start of `_on_PublishRequest`:
the request, the acknowledgement results, and a fresh callback id. -/
def incomingPublishData (e : ServerSidePublishEngine) (request : PublishRequest) :
    PublishData :=
  { request := request,
    results := e.process_subscriptionAcknowledgements request.subscriptionAcknowledgements,
    callbackId := e.nextCallbackId }

/-- `_on_PublishRequest(request, callback)`.  `emit` is the oracle for the
externally-defined behaviour of `process_subscription` on the fed late
subscription. -/
def _on_PublishRequest (e : ServerSidePublishEngine) (request : PublishRequest)
    (emit : Option NotifParam) (now : Nat) : ServerSidePublishEngine :=
  let publishData := e.incomingPublishData request
  let e0 : ServerSidePublishEngine := { e with nextCallbackId := e.nextCallbackId + 1 }
  match e0._process_pending_publish_response publishData with
  | (e1, true) => e1
  | (e1, false) =>
      if e1.isSessionClosed then
        e1.send_error_for_request publishData StatusCode.BadSessionClosed
      else if e1.subscriptionCount = 0 then
        match e1.closed_subscriptions with
        | c :: _ =>
            if c.hasPendingNotifications then
              let e2 : ServerSidePublishEngine :=
                { e1 with publish_request_queue := e1.publish_request_queue ++ [publishData] }
              (e2._feed_closed_subscription now).1
            else e1.send_error_for_request publishData StatusCode.BadNoSubscription
        | [] => e1.send_error_for_request publishData StatusCode.BadNoSubscription
      else
        _handle_too_many_requests (admissionStage e1 publishData emit now)

/-- `send_keep_alive_response(subscriptionId, future_sequence_number)`. -/
def send_keep_alive_response (e : ServerSidePublishEngine)
    (subscriptionId : Nat) (future_sequence_number : Nat) (now : Nat) :
    ServerSidePublishEngine × Bool :=
  match e.getSubscriptionById subscriptionId with
  | none => (e, false)
  | some _ =>
      if e.pendingPublishRequestCount = 0 then (e, false)
      else
        (e.send_notification_message
          { subscriptionId := subscriptionId,
            sequenceNumber := future_sequence_number,
            notificationData := [],
            moreNotifications := false } false now, true)

/-- `timeout_filter(data)` inside `_cancelTimeoutRequests` : a falsy
(`0`/absent) `timeout_time` means no limit; otherwise timed out iff
`timeout_time < current_time`. -/
def timeout_filter (current_time : Nat) (data : PublishData) : Bool :=
  if data.request.timeout_time = 0 then false
  else decide (data.request.timeout_time < current_time)

/-- `_cancelTimeoutRequests()`. -/
def _cancelTimeoutRequests (e : ServerSidePublishEngine) (now : Nat) :
    ServerSidePublishEngine :=
  if e.publish_request_queue.length = 0 then e
  else
    let part := e.publish_request_queue.partition (timeout_filter now)
    let e1 := { e with publish_request_queue := part.2 }
    part.1.foldl
      (fun acc publishData =>
        acc.send_response_for_request publishData (errorResponse StatusCode.BadTimeout)) e1

/-- `_on_tick()`. -/
def _on_tick (e : ServerSidePublishEngine) (now : Nat) : ServerSidePublishEngine :=
  e._cancelTimeoutRequests now

/-- `add_subscription(subscription)` (asserts the id is not already present). -/
def add_subscription (e : ServerSidePublishEngine) (subscription : Subscr) :
    ServerSidePublishEngine :=
  { e with subscriptions := e.subscriptions ++ [subscription] }

/-- `detach_subscription(subscription)` (asserts ownership). -/
def detach_subscription (e : ServerSidePublishEngine) (subscription : Subscr) :
    ServerSidePublishEngine :=
  { e with subscriptions := e.subscriptions.filter (fun t => t.id != subscription.id) }

/-- `shutdown()` (asserts `subscriptionCount === 0`): purge both queues and
the closed-drain list — without invoking any callback. -/
def shutdown (e : ServerSidePublishEngine) : ServerSidePublishEngine :=
  { e with
      publish_request_queue := [],
      publish_response_queue := [],
      closed_subscriptions := [] }

/-- `on_close_subscription(subscription)`. -/
def on_close_subscription (e : ServerSidePublishEngine) (subscription : Subscr)
    (now : Nat) : ServerSidePublishEngine :=
  let e1 :=
    if subscription.hasPendingNotifications then
      { e with closed_subscriptions := e.closed_subscriptions ++ [subscription] }
    else e
  let e2 :=
    { e1 with subscriptions := e1.subscriptions.filter (fun t => t.id != subscription.id) }
  if e2.subscriptionCount = 0 then (drainClosedLoop e2 now).cancelPendingPublishRequest
  else e2

end ServerSidePublishEngine

open ServerSidePublishEngine

/-- Labels for the public operations of the engine. -/
inductive Op where
  | publishRequest
  | notifyMsg
  | keepAlive
  | tick
  | addSub
  | detachSub
  | closeSub
  | sessionClose
  | channelChange
  | shutdownOp
  | environment
  deriving DecidableEq, Repr

/-- One public operation of the engine.  Hypotheses on the constructors are
the `assert` preconditions of the corresponding JS methods; the
`environment` step lets the external collaborators (subscription state
machines and timers) update the subscription records between engine calls,
leaving everything the engine itself owns untouched. -/
inductive Step : ServerSidePublishEngine → Op → ServerSidePublishEngine → Prop where
  | publishRequest (e : ServerSidePublishEngine) (request : PublishRequest)
      (emit : Option NotifParam) (now : Nat) :
      Step e Op.publishRequest (e._on_PublishRequest request emit now)
  | notifyMsg (e : ServerSidePublishEngine) (param : NotifParam) (force : Bool) (now : Nat)
      (h : 0 < e.pendingPublishRequestCount ∨ force = true) :
      Step e Op.notifyMsg (e.send_notification_message param force now)
  | keepAlive (e : ServerSidePublishEngine) (subscriptionId future_sequence_number now : Nat) :
      Step e Op.keepAlive (e.send_keep_alive_response subscriptionId future_sequence_number now).1
  | tick (e : ServerSidePublishEngine) (now : Nat) :
      Step e Op.tick (e._on_tick now)
  | addSub (e : ServerSidePublishEngine) (subscription : Subscr)
      (h : e.getSubscriptionById subscription.id = none) :
      Step e Op.addSub (e.add_subscription subscription)
  | detachSub (e : ServerSidePublishEngine) (subscription : Subscr)
      (h : e.getSubscriptionById subscription.id = some subscription) :
      Step e Op.detachSub (e.detach_subscription subscription)
  | closeSub (e : ServerSidePublishEngine) (subscription : Subscr) (now : Nat)
      (h : e.getSubscriptionById subscription.id = some subscription) :
      Step e Op.closeSub (e.on_close_subscription subscription now)
  | sessionClose (e : ServerSidePublishEngine) :
      Step e Op.sessionClose e.onSessionClose
  | channelChange (e : ServerSidePublishEngine) :
      Step e Op.channelChange e.cancelPendingPublishRequestBeforeChannelChange
  | shutdownStep (e : ServerSidePublishEngine) (h : e.subscriptionCount = 0) :
      Step e Op.shutdownOp e.shutdown
  | environment (e : ServerSidePublishEngine) (subs closed : List Subscr) :
      Step e Op.environment
        { e with subscriptions := subs, closed_subscriptions := closed }

/-- States reachable from a freshly constructed engine by public operations. -/
inductive Reachable : ServerSidePublishEngine → Prop where
  | init (options : Nat) : Reachable (mkEngine options)
  | step {e : ServerSidePublishEngine} {op : Op} {e' : ServerSidePublishEngine} :
      Reachable e → Step e op e' → Reachable e'

/-! ## Transfer of a subscription between two engines (C8)

`transferSubscription` manipulates the subscription's mutable back
reference `subscription.publishEngine` and the maps of two engines; this
heap structure is embedded as a `TransferWorld`: the engine maps keyed by
an engine id, and the transferred subscription's record with its back
reference and the counters of the transfer hooks. -/

/-- The transferred subscription: back reference plus instrumentation for
the externally-defined transfer hooks (`notifyTransfer` events record the
engine the status change is emitted toward — the value of
`publishEngine` at the instant of the call). -/
structure TransferSub where
  id : Nat
  publishEngine : Option Nat
  lifeTimeResetCount : Nat
  resendInitialValuesCount : Nat
  notifyTransferEvents : List (Option Nat)
  deriving DecidableEq, Repr

/-- Two-engine heap for `transferSubscription`: each engine id maps to the
list of subscription ids in its `_subscriptions` map. -/
structure TransferWorld where
  maps : List (Nat × List Nat)
  sub : TransferSub
  deriving DecidableEq, Repr

namespace TransferWorld

def mapOf (w : TransferWorld) (engineId : Nat) : List Nat :=
  match w.maps.find? (fun m => m.1 == engineId) with
  | some m => m.2
  | none => []

def setMap (w : TransferWorld) (engineId : Nat) (ids : List Nat) : TransferWorld :=
  { w with maps := w.maps.map (fun m => if m.1 == engineId then (m.1, ids) else m) }

/-- Modelled from the spec: `subscription.notifyTransfer()` (not under
src/) "emits a `StatusChangeNotification(GoodSubscriptionTransferred)` to
the source engine's queue"; recorded as an event toward the engine the
subscription currently references. -/
def notifyTransfer (w : TransferWorld) : TransferWorld :=
  { w with sub :=
      { w.sub with notifyTransferEvents := w.sub.notifyTransferEvents ++ [w.sub.publishEngine] } }

/-- `detach_subscription(subscription)` on engine `engineId`
(asserts `subscription.publishEngine === self` and membership):
`delete self._subscriptions[subscription.id]; subscription.publishEngine = null`. -/
def detach_subscription (w : TransferWorld) (engineId : Nat) : TransferWorld :=
  let w1 := w.setMap engineId ((w.mapOf engineId).filter (fun i => i != w.sub.id))
  { w1 with sub := { w1.sub with publishEngine := none } }

/-- `add_subscription(subscription)` on engine `engineId`:
`subscription.publishEngine = subscription.publishEngine || self` then add
to the map (asserts the id was absent). -/
def add_subscription (w : TransferWorld) (engineId : Nat) : TransferWorld :=
  let w1 :=
    { w with sub :=
        { w.sub with publishEngine :=
            match w.sub.publishEngine with
            | some x => some x
            | none => some engineId } }
  w1.setMap engineId (w1.mapOf engineId ++ [w1.sub.id])

/-- Modelled from the spec: `subscription.resetLifeTimeCounter()` — counted. -/
def resetLifeTimeCounter (w : TransferWorld) : TransferWorld :=
  { w with sub := { w.sub with lifeTimeResetCount := w.sub.lifeTimeResetCount + 1 } }

/-- Modelled from the spec: `subscription.resendInitialValues()` — counted. -/
def resendInitialValues (w : TransferWorld) : TransferWorld :=
  { w with sub := { w.sub with resendInitialValuesCount := w.sub.resendInitialValuesCount + 1 } }

/-- `static transferSubscription(subscription, destPublishEngine, sendInitialValues)`:
`notifyTransfer`, then detach from `subscription.publishEngine` and attach
to the destination, reset the lifetime counter, and resend initial values
when asked to. -/
def transferSubscription (w : TransferWorld) (destPublishEngine : Nat)
    (sendInitialValues : Bool) : TransferWorld :=
  let srcPublishEngine := w.sub.publishEngine.getD 0
  let w1 := w.notifyTransfer
  let w2 := (w1.detach_subscription srcPublishEngine).add_subscription destPublishEngine
  let w3 := w2.resetLifeTimeCounter
  if sendInitialValues then w3.resendInitialValues else w3

end TransferWorld

/-! ## Accounting devices for the proofs -/

/-- The callback ids of the records waiting in the request queue. -/
def qIds (e : ServerSidePublishEngine) : List Nat :=
  e.publish_request_queue.map PublishData.callbackId

/-- The callback ids whose callback has been invoked, in invocation order. -/
def lIds (e : ServerSidePublishEngine) : List Nat :=
  e.log.map Prod.fst

/-- Every callback id the engine has ever accepted: waiting or invoked. -/
def combinedIds (e : ServerSidePublishEngine) : List Nat :=
  qIds e ++ lIds e

/-- `e'` is obtained from `e` by answering some prefix of the waiting
records (each exactly once, oldest first) and touching no other record. -/
def ConsumesPrefix (e e' : ServerSidePublishEngine) : Prop :=
  ∃ n, e'.publish_request_queue = e.publish_request_queue.drop n ∧
    lIds e' = lIds e ++ (e.publish_request_queue.take n).map PublishData.callbackId

/-- No waiting record is dropped (it stays waiting or gets answered) and
no log entry disappears. -/
def KeepsRecords (e e' : ServerSidePublishEngine) : Prop :=
  (∀ i ∈ qIds e, i ∈ qIds e' ∨ i ∈ lIds e') ∧ (∀ i ∈ lIds e, i ∈ lIds e')

/-- Uniqueness and freshness of callback ids. -/
def goodIds (e : ServerSidePublishEngine) : Prop :=
  (combinedIds e).Nodup ∧ ∀ i ∈ combinedIds e, i < e.nextCallbackId

/-- The inductive engine invariant: the two queues are never simultaneously
non-empty, the request queue respects its bound, the bound is positive,
and callback ids are unique and fresh. -/
def EngineInv (e : ServerSidePublishEngine) : Prop :=
  (e.publish_response_queue = [] ∨ e.publish_request_queue = []) ∧
  e.publish_request_queue.length ≤ e.maxPublishRequestInQueue ∧
  1 ≤ e.maxPublishRequestInQueue ∧
  goodIds e

/-! ## Concrete fixtures used by witnesses and counterexamples -/

def fixtureRequest (requestHandle timeoutHint : Nat) : PublishRequest :=
  { requestHeader := { requestHandle := requestHandle, timeoutHint := timeoutHint },
    subscriptionAcknowledgements := [] }

def fixtureRecord (callbackId requestHandle timeout_time : Nat) : PublishData :=
  { request := { fixtureRequest requestHandle 0 with timeout_time := timeout_time },
    results := [], callbackId := callbackId }

def fixtureSubscr : Subscr :=
  { id := 1, priority := 0, timeToExpiration := 10, messageSent := false,
    publishingEnabled := true, state := SubState.NORMAL,
    availableSequenceNumbers := [], pendingNotifications := [] }

def fixtureNotif (subscriptionId sequenceNumber : Nat) : NotifParam :=
  { subscriptionId := subscriptionId, sequenceNumber := sequenceNumber,
    notificationData := [], moreNotifications := false }

def cexQueuedEngine : ServerSidePublishEngine :=
  { mkEngine 0 with publish_request_queue := [fixtureRecord 0 1 0], nextCallbackId := 1 }

def cex2Queued : ServerSidePublishEngine :=
  ((mkEngine 0).add_subscription fixtureSubscr)._on_PublishRequest (fixtureRequest 1 0) none 0

def cex2Final : ServerSidePublishEngine :=
  (cex2Queued.detach_subscription fixtureSubscr).shutdown

def cex6Closed : Subscr :=
  { fixtureSubscr with
      id := 9,
      state := SubState.CLOSED,
      pendingNotifications := [fixtureNotif 9 4] }

def cex6Start : ServerSidePublishEngine :=
  { cexQueuedEngine with closed_subscriptions := [cex6Closed] }

def cex3Over : ServerSidePublishEngine :=
  { cexQueuedEngine with
      maxPublishRequestInQueue := 1,
      publish_request_queue := [fixtureRecord 0 1 0, fixtureRecord 1 2 0] }

def cex6Empty : ServerSidePublishEngine :=
  { mkEngine 0 with closed_subscriptions := [cex6Closed] }

def cexTimeoutEngine : ServerSidePublishEngine :=
  { mkEngine 0 with
      publish_request_queue := [fixtureRecord 0 1 50, fixtureRecord 1 2 0],
      nextCallbackId := 2 }

def cexLateSub1 : Subscr :=
  { id := 2, priority := 5, timeToExpiration := 7, messageSent := true,
    publishingEnabled := true, state := SubState.LATE,
    availableSequenceNumbers := [], pendingNotifications := [] }

def cexLateSub2 : Subscr :=
  { cexLateSub1 with id := 3, priority := 3, timeToExpiration := 4 }

def cexLateEngine : ServerSidePublishEngine :=
  { cexQueuedEngine with subscriptions := [cexLateSub1, cexLateSub2] }

def cex8World : TransferWorld :=
  { maps := [(1, [7]), (2, [])],
    sub := { id := 7, publishEngine := some 1, lifeTimeResetCount := 0,
             resendInitialValuesCount := 0, notifyTransferEvents := [] } }

/-! ## Shape lemmas for the primitive operations -/

theorem send_notification_message_cases (e : ServerSidePublishEngine)
    (param : NotifParam) (force : Bool) (now : Nat) :
    (e.publish_request_queue = [] ∧
      e.send_notification_message param force now
        = { e with publish_response_queue :=
              e.publish_response_queue ++ [e.notificationResponse param now] }) ∨
    (∃ d rest, e.publish_request_queue = d :: rest ∧
      e.send_notification_message param force now
        = { e with publish_request_queue := rest,
                   log := e.log ++ [answered d (e.notificationResponse param now)] }) := by
  rcases hq : e.publish_request_queue with _ | ⟨d, rest⟩
  · exact Or.inl ⟨rfl, by simp [send_notification_message, hq]⟩
  · exact Or.inr ⟨d, rest, rfl,
      by simp [send_notification_message, send_response_for_request, hq]⟩

theorem send_notification_message_fields (e : ServerSidePublishEngine)
    (param : NotifParam) (force : Bool) (now : Nat) :
    (e.send_notification_message param force now).subscriptions = e.subscriptions ∧
    (e.send_notification_message param force now).closed_subscriptions
      = e.closed_subscriptions ∧
    (e.send_notification_message param force now).maxPublishRequestInQueue
      = e.maxPublishRequestInQueue ∧
    (e.send_notification_message param force now).isSessionClosed = e.isSessionClosed ∧
    (e.send_notification_message param force now).nextCallbackId = e.nextCallbackId := by
  rcases send_notification_message_cases e param force now with ⟨_, h⟩ | ⟨d, rest, _, h⟩ <;>
    rw [h] <;> exact ⟨rfl, rfl, rfl, rfl, rfl⟩

theorem publishAllPending_spec (now : Nat) :
    ∀ (l : List NotifParam) (e : ServerSidePublishEngine),
      (publishAllPending e now l).publish_request_queue
          = e.publish_request_queue.drop l.length ∧
      lIds (publishAllPending e now l)
          = lIds e ++ (e.publish_request_queue.take l.length).map PublishData.callbackId ∧
      (publishAllPending e now l).subscriptions = e.subscriptions ∧
      (publishAllPending e now l).closed_subscriptions = e.closed_subscriptions ∧
      (publishAllPending e now l).maxPublishRequestInQueue = e.maxPublishRequestInQueue ∧
      (publishAllPending e now l).isSessionClosed = e.isSessionClosed ∧
      (publishAllPending e now l).nextCallbackId = e.nextCallbackId ∧
      ((e.publish_response_queue = [] ∨ e.publish_request_queue = []) →
        ((publishAllPending e now l).publish_response_queue = [] ∨
          (publishAllPending e now l).publish_request_queue = [])) := by
  intro l
  induction l with
  | nil =>
      intro e
      refine ⟨rfl, by simp [publishAllPending], rfl, rfl, rfl, rfl, rfl, fun h => h⟩
  | cons p rest ih =>
      intro e
      have hstep := send_notification_message_cases e p true now
      rcases hstep with ⟨hq, heq⟩ | ⟨d, ds, hq, heq⟩
      · have h' := ih (e.send_notification_message p true now)
        simp only [publishAllPending]
        refine ⟨?_, ?_, ?_, ?_, ?_, ?_, ?_, ?_⟩
        · rw [h'.1, heq]; simp [hq]
        · rw [h'.2.1, heq]; simp [hq, lIds]
        · rw [h'.2.2.1, heq]
        · rw [h'.2.2.2.1, heq]
        · rw [h'.2.2.2.2.1, heq]
        · rw [h'.2.2.2.2.2.1, heq]
        · rw [h'.2.2.2.2.2.2.1, heq]
        · intro _
          refine h'.2.2.2.2.2.2.2 ?_
          rw [heq]; right; exact hq
      · have h' := ih (e.send_notification_message p true now)
        simp only [publishAllPending]
        refine ⟨?_, ?_, ?_, ?_, ?_, ?_, ?_, ?_⟩
        · rw [h'.1, heq]; simp [hq]
        · rw [h'.2.1, heq]; simp [hq, lIds, answered]
        · rw [h'.2.2.1, heq]
        · rw [h'.2.2.2.1, heq]
        · rw [h'.2.2.2.2.1, heq]
        · rw [h'.2.2.2.2.2.1, heq]
        · rw [h'.2.2.2.2.2.2.1, heq]
        · intro hP
          refine h'.2.2.2.2.2.2.2 ?_
          rw [heq]
          rcases hP with h1 | h1
          · left; exact h1
          · rw [hq] at h1; cases h1

theorem consumesPrefix_refl (e : ServerSidePublishEngine) : ConsumesPrefix e e :=
  ⟨0, by simp, by simp⟩

theorem consumesPrefix_trans {e e' e'' : ServerSidePublishEngine}
    (h1 : ConsumesPrefix e e') (h2 : ConsumesPrefix e' e'') : ConsumesPrefix e e'' := by
  obtain ⟨n, hq1, hl1⟩ := h1
  obtain ⟨m, hq2, hl2⟩ := h2
  refine ⟨n + m, ?_, ?_⟩
  · rw [hq2, hq1, List.drop_drop]
  · rw [hl2, hl1, hq1, List.take_add, List.map_append, List.append_assoc]

theorem consumesPrefix_keeps {e e' : ServerSidePublishEngine}
    (h : ConsumesPrefix e e') : KeepsRecords e e' := by
  obtain ⟨n, hq, hl⟩ := h
  constructor
  · intro i hi
    rw [qIds, ← List.take_append_drop n e.publish_request_queue, List.map_append] at hi
    rcases List.mem_append.1 hi with h1 | h1
    · right; rw [hl]; exact List.mem_append.2 (Or.inr h1)
    · left; rw [qIds, hq]; exact h1
  · intro i hi
    rw [hl]; exact List.mem_append.2 (Or.inl hi)

theorem keepsRecords_refl (e : ServerSidePublishEngine) : KeepsRecords e e :=
  ⟨fun _ hi => Or.inl hi, fun _ hi => hi⟩

theorem keepsRecords_trans {e e' e'' : ServerSidePublishEngine}
    (h1 : KeepsRecords e e') (h2 : KeepsRecords e' e'') : KeepsRecords e e'' := by
  refine ⟨fun i hi => ?_, fun i hi => h2.2 i (h1.2 i hi)⟩
  rcases h1.1 i hi with h | h
  · exact h2.1 i h
  · exact Or.inr (h2.2 i h)

theorem consumesPrefix_combined_perm {e e' : ServerSidePublishEngine}
    (h : ConsumesPrefix e e') : List.Perm (combinedIds e') (combinedIds e) := by
  obtain ⟨n, hq, hl⟩ := h
  have hcomb : combinedIds e'
      = (e.publish_request_queue.drop n).map PublishData.callbackId
        ++ (lIds e ++ (e.publish_request_queue.take n).map PublishData.callbackId) := by
    rw [combinedIds, qIds, hq, hl]
  rw [hcomb]
  refine List.Perm.trans (List.Perm.append_left _ List.perm_append_comm) ?_
  rw [← List.append_assoc]
  refine List.Perm.trans (List.Perm.append_right _ List.perm_append_comm) ?_
  rw [← List.map_append, List.take_append_drop]
  exact List.Perm.refl _

/-- Effect of one `_feed_closed_subscription` call: it answers a prefix of
the waiting requests, never touches the subscription map nor the flags,
and — when it returns `true` — strictly shrinks both the closed-drain
list and the request queue. -/
theorem _feed_closed_subscription_spec (e : ServerSidePublishEngine) (now : Nat) :
    ConsumesPrefix e (e._feed_closed_subscription now).1 ∧
    (e._feed_closed_subscription now).1.subscriptions = e.subscriptions ∧
    (e._feed_closed_subscription now).1.maxPublishRequestInQueue
      = e.maxPublishRequestInQueue ∧
    (e._feed_closed_subscription now).1.isSessionClosed = e.isSessionClosed ∧
    (e._feed_closed_subscription now).1.nextCallbackId = e.nextCallbackId ∧
    ((e.publish_response_queue = [] ∨ e.publish_request_queue = []) →
      ((e._feed_closed_subscription now).1.publish_response_queue = [] ∨
        (e._feed_closed_subscription now).1.publish_request_queue = [])) ∧
    ((e._feed_closed_subscription now).2 = true →
      (e._feed_closed_subscription now).1.closed_subscriptions.length
          < e.closed_subscriptions.length ∧
      (e._feed_closed_subscription now).1.publish_request_queue.length
          < e.publish_request_queue.length) := by
  unfold _feed_closed_subscription
  by_cases h0 : e.pendingPublishRequestCount = 0
  · rw [if_pos h0]
    exact ⟨consumesPrefix_refl e, rfl, rfl, rfl, rfl, fun h => h, by simp⟩
  · rw [if_neg h0]
    cases hc : e.closed_subscriptions with
    | nil =>
        exact ⟨consumesPrefix_refl e, rfl, rfl, rfl, rfl, fun h => h, by simp⟩
    | cons c rest =>
        dsimp only
        by_cases hp : c.hasPendingNotifications
        · rw [if_pos hp]
          have hs := publishAllPending_spec now c.pendingNotifications
            { e with closed_subscriptions := rest }
          have hk : 1 ≤ c.pendingNotifications.length := by
            rcases hl : c.pendingNotifications with _ | ⟨a, b⟩
            · rw [Subscr.hasPendingNotifications, hl] at hp; simp at hp
            · simp
          have hqlen : 1 ≤ e.publish_request_queue.length := by
            rw [pendingPublishRequestCount] at h0; omega
          refine ⟨⟨c.pendingNotifications.length, ?_, ?_⟩, ?_, ?_, ?_, ?_, ?_, ?_⟩
          · exact hs.1
          · exact hs.2.1
          · exact hs.2.2.1
          · exact hs.2.2.2.2.1
          · exact hs.2.2.2.2.2.1
          · exact hs.2.2.2.2.2.2.1
          · exact fun h => hs.2.2.2.2.2.2.2 h
          · intro _
            constructor
            · rw [hs.2.2.2.1]; simp
            · rw [hs.1]; simp only [List.length_drop]; omega
        · rw [if_neg hp]
          refine ⟨⟨0, by simp, by simp [lIds]⟩, rfl, rfl, rfl, rfl, fun h => h, by simp⟩

/-- Effect of the closed-drain while loop: same shape as a single feed
call, for any amount of fuel. -/
theorem drainClosedLoopFuel_spec (now : Nat) :
    ∀ (fuel : Nat) (e : ServerSidePublishEngine),
      ConsumesPrefix e (drainClosedLoopFuel fuel e now) ∧
      (drainClosedLoopFuel fuel e now).subscriptions = e.subscriptions ∧
      (drainClosedLoopFuel fuel e now).maxPublishRequestInQueue
        = e.maxPublishRequestInQueue ∧
      (drainClosedLoopFuel fuel e now).isSessionClosed = e.isSessionClosed ∧
      (drainClosedLoopFuel fuel e now).nextCallbackId = e.nextCallbackId ∧
      ((e.publish_response_queue = [] ∨ e.publish_request_queue = []) →
        ((drainClosedLoopFuel fuel e now).publish_response_queue = [] ∨
          (drainClosedLoopFuel fuel e now).publish_request_queue = [])) ∧
      (drainClosedLoopFuel fuel e now).publish_request_queue.length
        ≤ e.publish_request_queue.length := by
  intro fuel
  induction fuel with
  | zero =>
      intro e
      exact ⟨consumesPrefix_refl e, rfl, rfl, rfl, rfl, fun h => h, le_refl _⟩
  | succ n ih =>
      intro e
      have hf := _feed_closed_subscription_spec e now
      simp only [drainClosedLoopFuel]
      by_cases hb : (e._feed_closed_subscription now).2 = true
      · simp only [hb, if_true]
        have h' := ih (e._feed_closed_subscription now).1
        obtain ⟨m, hm1, hm2⟩ := hf.1
        refine ⟨consumesPrefix_trans hf.1 h'.1, ?_, ?_, ?_, ?_, ?_, ?_⟩
        · rw [h'.2.1, hf.2.1]
        · rw [h'.2.2.1, hf.2.2.1]
        · rw [h'.2.2.2.1, hf.2.2.2.1]
        · rw [h'.2.2.2.2.1, hf.2.2.2.2.1]
        · exact fun h => h'.2.2.2.2.2.1 (hf.2.2.2.2.2.1 h)
        · refine le_trans h'.2.2.2.2.2.2 ?_
          exact le_of_lt (hf.2.2.2.2.2.2 hb).2
      · simp only [hb, Bool.false_eq_true, if_false]
        exact ⟨hf.1, hf.2.1, hf.2.2.1, hf.2.2.2.1, hf.2.2.2.2.1, hf.2.2.2.2.2.1,
          by obtain ⟨m, hm1, _⟩ := hf.1
             rw [hm1]; simp only [List.length_drop]; omega⟩

theorem foldl_send_response_spec (resp : PublishResponse) :
    ∀ (l : List PublishData) (acc : ServerSidePublishEngine),
      (l.foldl (fun a d => a.send_response_for_request d resp) acc)
        = { acc with log := acc.log ++ l.map (fun d => answered d resp) } := by
  intro l
  induction l with
  | nil => intro acc; simp
  | cons d ds ih =>
      intro acc
      rw [List.foldl_cons, ih]
      simp [send_response_for_request]

theorem cancelPendingWith_spec (e : ServerSidePublishEngine) (status : StatusCode) :
    e.cancelPendingWith status
      = { e with publish_request_queue := [],
                 log := e.log ++ e.publish_request_queue.map
                   (fun d => answered d (errorResponse status)) } := by
  unfold cancelPendingWith send_error_for_request
  rw [foldl_send_response_spec]

theorem _cancelTimeoutRequests_spec (e : ServerSidePublishEngine) (now : Nat) :
    e._cancelTimeoutRequests now
      = { e with
            publish_request_queue :=
              e.publish_request_queue.filter (fun d => !(timeout_filter now d)),
            log := e.log ++ (e.publish_request_queue.filter (timeout_filter now)).map
              (fun d => answered d (errorResponse StatusCode.BadTimeout)) } := by
  unfold _cancelTimeoutRequests
  by_cases h0 : e.publish_request_queue.length = 0
  · rw [if_pos h0]
    have he : e.publish_request_queue = [] := List.length_eq_zero.1 h0
    rw [he]
    simp only [List.filter_nil, List.map_nil, List.append_nil]
    conv_rhs => rw [← he]
  · rw [if_neg h0]
    rw [List.partition_eq_filter_filter]
    rw [foldl_send_response_spec]
    rfl

theorem _handle_too_many_requests_of_le (e : ServerSidePublishEngine)
    (h : e.pendingPublishRequestCount ≤ e.maxPublishRequestInQueue) :
    e._handle_too_many_requests = e := by
  unfold _handle_too_many_requests
  rw [if_neg (by omega)]

theorem _handle_too_many_requests_of_gt (e : ServerSidePublishEngine)
    (d : PublishData) (rest : List PublishData)
    (hq : e.publish_request_queue = d :: rest)
    (h : e.pendingPublishRequestCount > e.maxPublishRequestInQueue) :
    e._handle_too_many_requests
      = { e with publish_request_queue := rest,
                 log := e.log ++
                   [answered d (errorResponse StatusCode.BadTooManyPublishRequests)] } := by
  unfold _handle_too_many_requests
  rw [if_pos h, hq]
  rfl

theorem _feed_late_subscription_spec (e : ServerSidePublishEngine)
    (emit : Option NotifParam) (now : Nat) :
    ConsumesPrefix e (e._feed_late_subscription emit now).1 ∧
    (e._feed_late_subscription emit now).1.publish_response_queue
      = e.publish_response_queue ∧
    (e._feed_late_subscription emit now).1.subscriptions = e.subscriptions ∧
    (e._feed_late_subscription emit now).1.closed_subscriptions = e.closed_subscriptions ∧
    (e._feed_late_subscription emit now).1.maxPublishRequestInQueue
      = e.maxPublishRequestInQueue ∧
    (e._feed_late_subscription emit now).1.isSessionClosed = e.isSessionClosed ∧
    (e._feed_late_subscription emit now).1.nextCallbackId = e.nextCallbackId := by
  unfold _feed_late_subscription
  by_cases h0 : e.pendingPublishRequestCount = 0
  · rw [if_pos h0]
    exact ⟨consumesPrefix_refl e, rfl, rfl, rfl, rfl, rfl, rfl⟩
  · rw [if_neg h0]
    cases e.findSubscriptionWaitingForFirstPublish.orElse
        (fun _ => e.findLateSubscriptionSortedByPriority) with
    | none => exact ⟨consumesPrefix_refl e, rfl, rfl, rfl, rfl, rfl, rfl⟩
    | some s =>
        dsimp only
        unfold process_subscription
        cases emit with
        | none => exact ⟨consumesPrefix_refl e, rfl, rfl, rfl, rfl, rfl, rfl⟩
        | some param =>
            dsimp only
            rcases send_notification_message_cases e param false now with
              ⟨hq, _⟩ | ⟨d, rest, hq, heq⟩
            · exfalso
              rw [pendingPublishRequestCount, hq] at h0
              exact h0 rfl
            · rw [heq]
              refine ⟨⟨1, ?_, ?_⟩, rfl, rfl, rfl, rfl, rfl, rfl⟩
              · rw [hq]; rfl
              · rw [hq]; simp [lIds, answered]

/-- If an answer step leaves the request queue the same length, it did not
touch the queue at all. -/
theorem consumesPrefix_len_eq {e e' : ServerSidePublishEngine}
    (h : ConsumesPrefix e e')
    (hlen : e'.publish_request_queue.length = e.publish_request_queue.length) :
    e'.publish_request_queue = e.publish_request_queue := by
  obtain ⟨n, hq, _⟩ := h
  rw [hq] at hlen ⊢
  rw [List.length_drop] at hlen
  rcases Nat.eq_zero_or_pos e.publish_request_queue.length with h0 | h0
  · rw [List.length_eq_zero.1 h0]; simp
  · have : n = 0 := by omega
    rw [this]; simp

theorem combined_perm_of_answer {e e' : ServerSidePublishEngine} {A B : List Nat}
    (hq : qIds e' = A) (hl : lIds e' = lIds e ++ B)
    (hperm : List.Perm (A ++ B) (qIds e)) :
    List.Perm (combinedIds e') (combinedIds e) := by
  have : combinedIds e' = A ++ (lIds e ++ B) := by rw [combinedIds, hq, hl]
  rw [this]
  refine List.Perm.trans (List.Perm.append_left _ List.perm_append_comm) ?_
  rw [← List.append_assoc]
  exact List.Perm.append_right _ hperm

theorem goodIds_of_perm {e e' : ServerSidePublishEngine}
    (hperm : List.Perm (combinedIds e') (combinedIds e))
    (hc : e.nextCallbackId ≤ e'.nextCallbackId)
    (h : goodIds e) : goodIds e' := by
  refine ⟨hperm.nodup_iff.2 h.1, fun i hi => ?_⟩
  have := h.2 i (hperm.mem_iff.1 hi)
  omega

theorem goodIds_of_sublist {e e' : ServerSidePublishEngine}
    (hsub : List.Sublist (combinedIds e') (combinedIds e))
    (hc : e.nextCallbackId ≤ e'.nextCallbackId)
    (h : goodIds e) : goodIds e' := by
  refine ⟨h.1.sublist hsub, fun i hi => ?_⟩
  have := h.2 i (hsub.mem hi)
  omega

/-- The five mutually exclusive execution paths of `_on_PublishRequest`:
deliver a stashed response; reject a closed session; drain a closed
subscription; reject with no subscription; or admit into the queue. -/
theorem _on_PublishRequest_cases (e : ServerSidePublishEngine) (request : PublishRequest)
    (emit : Option NotifParam) (now : Nat) :
    (∃ r rest, e.publish_response_queue = r :: rest ∧
      e._on_PublishRequest request emit now
        = { e with publish_response_queue := rest,
                   log := e.log ++ [answered (e.incomingPublishData request) r],
                   nextCallbackId := e.nextCallbackId + 1 }) ∨
    (e.publish_response_queue = [] ∧ e.isSessionClosed = true ∧
      e._on_PublishRequest request emit now
        = { e with log := e.log ++ [answered (e.incomingPublishData request)
                     (errorResponse StatusCode.BadSessionClosed)],
                   nextCallbackId := e.nextCallbackId + 1 }) ∨
    (e.publish_response_queue = [] ∧ e.isSessionClosed = false ∧ e.subscriptionCount = 0 ∧
      (∃ c crest, e.closed_subscriptions = c :: crest ∧ c.hasPendingNotifications = true) ∧
      e._on_PublishRequest request emit now
        = ({ e with publish_request_queue :=
                      e.publish_request_queue ++ [e.incomingPublishData request],
                    nextCallbackId := e.nextCallbackId + 1 }._feed_closed_subscription now).1) ∨
    (e.publish_response_queue = [] ∧ e.isSessionClosed = false ∧ e.subscriptionCount = 0 ∧
      (∀ c crest, e.closed_subscriptions = c :: crest → c.hasPendingNotifications = false) ∧
      e._on_PublishRequest request emit now
        = { e with log := e.log ++ [answered (e.incomingPublishData request)
                     (errorResponse StatusCode.BadNoSubscription)],
                   nextCallbackId := e.nextCallbackId + 1 }) ∨
    (e.publish_response_queue = [] ∧ e.isSessionClosed = false ∧ e.subscriptionCount ≠ 0 ∧
      e._on_PublishRequest request emit now
        = _handle_too_many_requests
            (admissionStage { e with nextCallbackId := e.nextCallbackId + 1 }
              (e.incomingPublishData request) emit now)) := by
  unfold _on_PublishRequest _process_pending_publish_response
  dsimp only
  rcases hr : e.publish_response_queue with _ | ⟨r, rest⟩
  · dsimp only [subscriptionCount]
    cases hflag : e.isSessionClosed with
    | true =>
        rw [if_pos rfl]
        exact Or.inr (Or.inl ⟨rfl, rfl, rfl⟩)
    | false =>
        rw [if_neg (by simp)]
        by_cases hcnt : e.subscriptions.length = 0
        · rw [if_pos hcnt]
          rcases hcl : e.closed_subscriptions with _ | ⟨c, crest⟩
          · dsimp only
            refine Or.inr (Or.inr (Or.inr (Or.inl ⟨rfl, rfl, hcnt, ?_, rfl⟩)))
            intro c' crest' habs
            cases habs
          · dsimp only
            by_cases hp : c.hasPendingNotifications
            · rw [if_pos hp]
              exact Or.inr (Or.inr (Or.inl ⟨rfl, rfl, hcnt, ⟨c, crest, rfl, hp⟩, rfl⟩))
            · rw [if_neg hp]
              refine Or.inr (Or.inr (Or.inr (Or.inl ⟨rfl, rfl, hcnt, ?_, rfl⟩)))
              intro c' crest' heq
              cases heq
              simpa using hp
        · rw [if_neg hcnt]
          exact Or.inr (Or.inr (Or.inr (Or.inr ⟨rfl, rfl, hcnt, rfl⟩)))
  · dsimp only
    exact Or.inl ⟨r, rest, rfl, rfl⟩

/-- Effect of the admission stage: starting from the queue with the
prepared record appended, it only answers a prefix of the waiting records;
the subscription map, the flags and the bound are untouched. -/
theorem admissionStage_spec (e : ServerSidePublishEngine) (pd : PublishData)
    (emit : Option NotifParam) (now : Nat) :
    ConsumesPrefix
      { e with publish_request_queue := e.publish_request_queue
          ++ [{ pd with request := prepare_timeout_info pd.request now }] }
      (admissionStage e pd emit now) ∧
    (admissionStage e pd emit now).subscriptions = e.subscriptions ∧
    (admissionStage e pd emit now).maxPublishRequestInQueue = e.maxPublishRequestInQueue ∧
    (admissionStage e pd emit now).isSessionClosed = e.isSessionClosed ∧
    (admissionStage e pd emit now).nextCallbackId = e.nextCallbackId ∧
    (e.publish_response_queue = [] →
      ((admissionStage e pd emit now).publish_response_queue = [] ∨
        (admissionStage e pd emit now).publish_request_queue = [])) := by
  unfold admissionStage
  dsimp only
  set ePush : ServerSidePublishEngine :=
    { e with publish_request_queue := e.publish_request_queue
        ++ [{ pd with request := prepare_timeout_info pd.request now }] } with hPush
  have hfl := _feed_late_subscription_spec ePush emit now
  have hfc := _feed_closed_subscription_spec (ePush._feed_late_subscription emit now).1 now
  refine ⟨consumesPrefix_trans hfl.1 hfc.1, ?_, ?_, ?_, ?_, ?_⟩
  · rw [hfc.2.1, hfl.2.2.1]
  · rw [hfc.2.2.1, hfl.2.2.2.2.1]
  · rw [hfc.2.2.2.1, hfl.2.2.2.2.2.1]
  · rw [hfc.2.2.2.2.1, hfl.2.2.2.2.2.2]
  · intro hresp
    refine hfc.2.2.2.2.2.1 ?_
    left
    rw [hfl.2.1]
    exact hresp

/-- `_feed_closed_subscription` fires (shifts the head and publishes) when
a request is pending and the closed head has pending notifications. -/
theorem _feed_closed_subscription_fires (e : ServerSidePublishEngine) (now : Nat)
    (c : Subscr) (crest : List Subscr)
    (h0 : e.pendingPublishRequestCount ≠ 0)
    (hc : e.closed_subscriptions = c :: crest)
    (hp : c.hasPendingNotifications = true) :
    e._feed_closed_subscription now
      = (publishAllPending { e with closed_subscriptions := crest } now
          c.pendingNotifications, true) := by
  unfold _feed_closed_subscription
  rw [if_neg h0, hc]
  dsimp only
  rw [if_pos hp]

/-- Effect of `_handle_too_many_requests` on the queues. -/
theorem _handle_too_many_requests_spec (e : ServerSidePublishEngine) :
    ConsumesPrefix e e._handle_too_many_requests ∧
    e._handle_too_many_requests.publish_response_queue = e.publish_response_queue ∧
    e._handle_too_many_requests.subscriptions = e.subscriptions ∧
    e._handle_too_many_requests.closed_subscriptions = e.closed_subscriptions ∧
    e._handle_too_many_requests.maxPublishRequestInQueue = e.maxPublishRequestInQueue ∧
    e._handle_too_many_requests.isSessionClosed = e.isSessionClosed ∧
    e._handle_too_many_requests.nextCallbackId = e.nextCallbackId ∧
    (e.publish_request_queue.length ≤ e.maxPublishRequestInQueue + 1 →
      e._handle_too_many_requests.publish_request_queue.length
        ≤ e.maxPublishRequestInQueue) := by
  unfold _handle_too_many_requests
  by_cases h : e.pendingPublishRequestCount > e.maxPublishRequestInQueue
  · rw [if_pos h]
    rcases hq : e.publish_request_queue with _ | ⟨d, rest⟩
    · rw [pendingPublishRequestCount, hq] at h
      simp at h
    · dsimp only
      unfold send_error_for_request send_response_for_request
      rw [pendingPublishRequestCount, hq] at h
      refine ⟨⟨1, by rw [hq]; rfl, by rw [hq]; simp [lIds, answered]⟩,
        rfl, rfl, rfl, rfl, rfl, rfl, ?_⟩
      intro hb
      simp at hb ⊢
      omega
  · rw [if_neg h]
    rw [pendingPublishRequestCount] at h
    exact ⟨consumesPrefix_refl e, rfl, rfl, rfl, rfl, rfl, rfl, fun _ => by omega⟩

/-- An id below the counter bound is never the fresh id. -/
theorem fresh_not_mem {e : ServerSidePublishEngine} (h : goodIds e) :
    e.nextCallbackId ∉ combinedIds e := fun hmem =>
  absurd (h.2 _ hmem) (by omega)

/-- `goodIds` survives any reshuffle of the accepted ids that adds exactly
the fresh id and bumps the counter. -/
theorem goodIds_extend {e e' : ServerSidePublishEngine}
    (hperm : List.Perm (combinedIds e') (combinedIds e ++ [e.nextCallbackId]))
    (hc : e'.nextCallbackId = e.nextCallbackId + 1)
    (h : goodIds e) : goodIds e' := by
  constructor
  · refine hperm.nodup_iff.2 ?_
    have h1 : List.Perm (combinedIds e ++ [e.nextCallbackId])
        (e.nextCallbackId :: combinedIds e) := List.perm_append_singleton _ _
    refine h1.nodup_iff.2 ?_
    exact List.nodup_cons.2 ⟨fresh_not_mem h, h.1⟩
  · intro i hi
    have hi' := hperm.mem_iff.1 hi
    rw [hc]
    rcases List.mem_append.1 hi' with h1 | h1
    · have := h.2 _ h1; omega
    · simp at h1; omega

/-- Master effect lemma for `_on_PublishRequest`: it preserves the engine
invariant, drops no accepted record, accounts for the freshly accepted
record, and leaves the bound and the session flag unchanged. -/
theorem _on_PublishRequest_effect (e : ServerSidePublishEngine) (request : PublishRequest)
    (emit : Option NotifParam) (now : Nat) (hinv : EngineInv e) :
    EngineInv (e._on_PublishRequest request emit now) ∧
    KeepsRecords e (e._on_PublishRequest request emit now) ∧
    (e.nextCallbackId ∈ qIds (e._on_PublishRequest request emit now) ∨
      e.nextCallbackId ∈ lIds (e._on_PublishRequest request emit now)) ∧
    (e._on_PublishRequest request emit now).maxPublishRequestInQueue
      = e.maxPublishRequestInQueue ∧
    (e._on_PublishRequest request emit now).isSessionClosed = e.isSessionClosed := by
  obtain ⟨hP, hlen, hmax, hgood⟩ := hinv
  rcases _on_PublishRequest_cases e request emit now with
    ⟨r, rest, hr, heq⟩ | ⟨hr, hflag, heq⟩ | ⟨hr, hflag, hcnt, ⟨c, crest, hcl, hcp⟩, heq⟩ |
    ⟨hr, hflag, hcnt, hnp, heq⟩ | ⟨hr, hflag, hcnt, heq⟩
  -- 1: stashed-response path: pop one response, answer the fresh record
  · rw [heq]
    have hq0 : e.publish_request_queue = [] := by
      rcases hP with h | h
      · rw [hr] at h; cases h
      · exact h
    refine ⟨⟨Or.inr hq0, by simpa using hlen, hmax, ?_⟩,
      ⟨fun i hi => Or.inl hi, fun i hi => by
        simp only [lIds, List.map_append] at *
        exact List.mem_append.2 (Or.inl hi)⟩,
      Or.inr (by simp [lIds, answered, incomingPublishData]), rfl, rfl⟩
    refine goodIds_extend ?_ rfl hgood
    have : combinedIds { e with
        publish_response_queue := rest,
        log := e.log ++ [answered (e.incomingPublishData request) r],
        nextCallbackId := e.nextCallbackId + 1 }
        = qIds e ++ (lIds e ++ [e.nextCallbackId]) := by
      simp [combinedIds, qIds, lIds, answered, incomingPublishData]
    rw [this, combinedIds, ← List.append_assoc]
  -- 2: session-closed path
  · rw [heq]
    refine ⟨⟨Or.inl hr, hlen, hmax, ?_⟩,
      ⟨fun i hi => Or.inl hi, fun i hi => by
        simp only [lIds, List.map_append] at *
        exact List.mem_append.2 (Or.inl hi)⟩,
      Or.inr (by simp [lIds, answered, incomingPublishData]), rfl, rfl⟩
    refine goodIds_extend ?_ rfl hgood
    have : combinedIds { e with
        log := e.log ++ [answered (e.incomingPublishData request)
          (errorResponse StatusCode.BadSessionClosed)],
        nextCallbackId := e.nextCallbackId + 1 }
        = qIds e ++ (lIds e ++ [e.nextCallbackId]) := by
      simp [combinedIds, qIds, lIds, answered, incomingPublishData]
    rw [this, combinedIds, ← List.append_assoc]
  -- 3: closed-drain path
  · rw [heq]
    set ePush : ServerSidePublishEngine :=
      { e with
          publish_request_queue :=
            e.publish_request_queue ++ [e.incomingPublishData request],
          nextCallbackId := e.nextCallbackId + 1 } with hPush
    have hfc := _feed_closed_subscription_spec ePush now
    have hfires := _feed_closed_subscription_fires ePush now c crest
      (by simp [hPush, pendingPublishRequestCount]) (by simp [hPush, hcl]) hcp
    have hkeep0 : KeepsRecords e ePush := by
      refine ⟨fun i hi => Or.inl ?_, fun i hi => by simp [hPush, lIds] at *; exact hi⟩
      simp [hPush, qIds] at *
      exact Or.inl hi
    have hcombPush : combinedIds ePush = (qIds e ++ [e.nextCallbackId]) ++ lIds e := by
      simp [hPush, combinedIds, qIds, lIds, incomingPublishData]
    have hpermPush : List.Perm (combinedIds ePush) (combinedIds e ++ [e.nextCallbackId]) := by
      rw [hcombPush, combinedIds, List.append_assoc, List.append_assoc]
      refine List.Perm.append_left _ List.perm_append_comm
    refine ⟨⟨?_, ?_, by rw [hfc.2.2.1]; exact hmax, ?_⟩, ?_, ?_, ?_, ?_⟩
    · refine hfc.2.2.2.2.2.1 ?_
      left
      simp [hPush, hr]
    · -- the drain fires, so at least one record is consumed
      have h2 : (ePush._feed_closed_subscription now).2 = true := by rw [hfires]
      have := (hfc.2.2.2.2.2.2 h2).2
      have hlenPush : ePush.publish_request_queue.length
          = e.publish_request_queue.length + 1 := by simp [hPush]
      have hmp : ePush.maxPublishRequestInQueue = e.maxPublishRequestInQueue := rfl
      rw [hfc.2.2.1, hmp]
      omega
    · refine goodIds_extend ?_ (by rw [hfc.2.2.2.2.1]) hgood
      exact List.Perm.trans (consumesPrefix_combined_perm hfc.1) hpermPush
    · exact keepsRecords_trans hkeep0 (consumesPrefix_keeps hfc.1)
    · have : e.nextCallbackId ∈ qIds ePush := by
        simp [hPush, qIds, incomingPublishData]
      exact (consumesPrefix_keeps hfc.1).1 _ this
    · rw [hfc.2.2.1]
    · rw [hfc.2.2.2.1]
  -- 4: no-subscription path
  · rw [heq]
    refine ⟨⟨Or.inl hr, hlen, hmax, ?_⟩,
      ⟨fun i hi => Or.inl hi, fun i hi => by
        simp only [lIds, List.map_append] at *
        exact List.mem_append.2 (Or.inl hi)⟩,
      Or.inr (by simp [lIds, answered, incomingPublishData]), rfl, rfl⟩
    refine goodIds_extend ?_ rfl hgood
    have : combinedIds { e with
        log := e.log ++ [answered (e.incomingPublishData request)
          (errorResponse StatusCode.BadNoSubscription)],
        nextCallbackId := e.nextCallbackId + 1 }
        = qIds e ++ (lIds e ++ [e.nextCallbackId]) := by
      simp [combinedIds, qIds, lIds, answered, incomingPublishData]
    rw [this, combinedIds, ← List.append_assoc]
  -- 5: admission path
  · rw [heq]
    set eBump : ServerSidePublishEngine :=
      { e with nextCallbackId := e.nextCallbackId + 1 } with hBump
    set pd := e.incomingPublishData request with hpd
    set ePush : ServerSidePublishEngine :=
      { eBump with
          publish_request_queue :=
            eBump.publish_request_queue
              ++ [{ pd with request := prepare_timeout_info pd.request now }] } with hPush
    have hadm := admissionStage_spec eBump pd emit now
    have hhtm := _handle_too_many_requests_spec (admissionStage eBump pd emit now)
    have hCP : ConsumesPrefix ePush
        (admissionStage eBump pd emit now)._handle_too_many_requests :=
      consumesPrefix_trans hadm.1 hhtm.1
    have hkeep0 : KeepsRecords e ePush := by
      refine ⟨fun i hi => Or.inl ?_, fun i hi => by simp [hPush, hBump, lIds] at *; exact hi⟩
      simp [hPush, hBump, qIds] at *
      exact Or.inl hi
    have hcombPush : combinedIds ePush = (qIds e ++ [e.nextCallbackId]) ++ lIds e := by
      simp [hPush, hBump, combinedIds, qIds, lIds, hpd, incomingPublishData]
    have hpermPush : List.Perm (combinedIds ePush) (combinedIds e ++ [e.nextCallbackId]) := by
      rw [hcombPush, combinedIds, List.append_assoc, List.append_assoc]
      refine List.Perm.append_left _ List.perm_append_comm
    refine ⟨⟨?_, ?_, ?_, ?_⟩, ?_, ?_, ?_, ?_⟩
    · -- queues invariant
      rcases hadm.2.2.2.2.2 (by simp [hBump, hr]) with ha | ha
      · left; rw [hhtm.2.1]; exact ha
      · right
        obtain ⟨n, hq, _⟩ := hhtm.1
        rw [hq, ha]
        simp
    · -- length bound
      obtain ⟨n, hq, _⟩ := hadm.1
      have hlenAdm : (admissionStage eBump pd emit now).publish_request_queue.length
          ≤ e.publish_request_queue.length + 1 := by
        rw [hq]
        have : ePush.publish_request_queue.length
            = e.publish_request_queue.length + 1 := by simp [hPush, hBump]
        rw [List.length_drop, this]
        omega
      have hmaxAdm : (admissionStage eBump pd emit now).maxPublishRequestInQueue
          = e.maxPublishRequestInQueue := by
        rw [hadm.2.2.1]
      have hb := hhtm.2.2.2.2.2.2.2 (by rw [hmaxAdm]; omega)
      rw [hhtm.2.2.2.2.1, hmaxAdm]
      rw [hmaxAdm] at hb
      exact hb
    · rw [hhtm.2.2.2.2.1, hadm.2.2.1]; exact hmax
    · refine goodIds_extend ?_ ?_ hgood
      · exact List.Perm.trans (consumesPrefix_combined_perm hCP) hpermPush
      · rw [hhtm.2.2.2.2.2.2.1, hadm.2.2.2.2.1]
    · exact keepsRecords_trans hkeep0 (consumesPrefix_keeps hCP)
    · have : e.nextCallbackId ∈ qIds ePush := by
        simp [hPush, hBump, qIds, hpd, incomingPublishData]
      exact (consumesPrefix_keeps hCP).1 _ this
    · rw [hhtm.2.2.2.2.1, hadm.2.2.1]
    · rw [hhtm.2.2.2.2.2.1, hadm.2.2.2.1]

theorem map_fst_answered (q : List PublishData) (resp : PublishResponse) :
    (q.map (fun d => answered d resp)).map Prod.fst = q.map PublishData.callbackId := by
  rw [List.map_map]; rfl

/-- Effect of `send_notification_message` on the invariant. -/
theorem send_notification_message_effect (e : ServerSidePublishEngine)
    (param : NotifParam) (force : Bool) (now : Nat) (hinv : EngineInv e) :
    EngineInv (e.send_notification_message param force now) ∧
    KeepsRecords e (e.send_notification_message param force now) ∧
    (e.send_notification_message param force now).isSessionClosed = e.isSessionClosed := by
  obtain ⟨hP, hlen, hmax, hgood⟩ := hinv
  rcases send_notification_message_cases e param force now with ⟨hq, heq⟩ | ⟨d, rest, hq, heq⟩
  · rw [heq]
    exact ⟨⟨Or.inr hq, by simpa using hlen, hmax, hgood⟩, keepsRecords_refl e, rfl⟩
  · rw [heq]
    have hcp : ConsumesPrefix e { e with
        publish_request_queue := rest,
        log := e.log ++ [answered d (e.notificationResponse param now)] } := by
      refine ⟨1, by rw [hq]; rfl, by rw [hq]; simp [lIds, answered]⟩
    have hrespEmpty : e.publish_response_queue = [] := by
      rcases hP with h | h
      · exact h
      · rw [hq] at h; cases h
    refine ⟨⟨Or.inl hrespEmpty, ?_, hmax, ?_⟩, consumesPrefix_keeps hcp, rfl⟩
    · have : rest.length + 1 = e.publish_request_queue.length := by rw [hq]; rfl
      simp only []
      omega
    · exact goodIds_of_perm (consumesPrefix_combined_perm hcp) (le_refl _) hgood

/-- `send_keep_alive_response` either does nothing or performs one
`send_notification_message`. -/
theorem send_keep_alive_response_cases (e : ServerSidePublishEngine)
    (subscriptionId future_sequence_number now : Nat) :
    (e.send_keep_alive_response subscriptionId future_sequence_number now).1 = e ∨
    (e.send_keep_alive_response subscriptionId future_sequence_number now).1
      = e.send_notification_message
          { subscriptionId := subscriptionId,
            sequenceNumber := future_sequence_number,
            notificationData := [],
            moreNotifications := false } false now := by
  unfold send_keep_alive_response
  cases e.getSubscriptionById subscriptionId with
  | none => exact Or.inl rfl
  | some s =>
      dsimp only
      by_cases h0 : e.pendingPublishRequestCount = 0
      · rw [if_pos h0]
        exact Or.inl rfl
      · rw [if_neg h0]
        exact Or.inr rfl

/-- Effect of `_cancelTimeoutRequests` on the invariant. -/
theorem _cancelTimeoutRequests_effect (e : ServerSidePublishEngine) (now : Nat)
    (hinv : EngineInv e) :
    EngineInv (e._cancelTimeoutRequests now) ∧
    KeepsRecords e (e._cancelTimeoutRequests now) ∧
    (e._cancelTimeoutRequests now).isSessionClosed = e.isSessionClosed := by
  obtain ⟨hP, hlen, hmax, hgood⟩ := hinv
  rw [_cancelTimeoutRequests_spec]
  have hqIds : qIds { e with
      publish_request_queue :=
        e.publish_request_queue.filter (fun d => !(timeout_filter now d)),
      log := e.log ++ (e.publish_request_queue.filter (timeout_filter now)).map
        (fun d => answered d (errorResponse StatusCode.BadTimeout)) }
      = (e.publish_request_queue.filter (fun d => !(timeout_filter now d))).map
          PublishData.callbackId := rfl
  have hlIds : lIds { e with
      publish_request_queue :=
        e.publish_request_queue.filter (fun d => !(timeout_filter now d)),
      log := e.log ++ (e.publish_request_queue.filter (timeout_filter now)).map
        (fun d => answered d (errorResponse StatusCode.BadTimeout)) }
      = lIds e ++ (e.publish_request_queue.filter (timeout_filter now)).map
          PublishData.callbackId := by
    simp only [lIds, List.map_append, map_fst_answered]
  have hperm : List.Perm
      ((e.publish_request_queue.filter (fun d => !(timeout_filter now d))).map
          PublishData.callbackId
        ++ (e.publish_request_queue.filter (timeout_filter now)).map
          PublishData.callbackId)
      (qIds e) := by
    rw [← List.map_append, qIds]
    refine List.Perm.map _ ?_
    refine List.Perm.trans List.perm_append_comm ?_
    exact List.filter_append_perm _ _
  have hcancel := combined_perm_of_answer hqIds hlIds hperm
  refine ⟨⟨?_, ?_, hmax, goodIds_of_perm hcancel (le_refl _) hgood⟩, ⟨?_, ?_⟩, rfl⟩
  · rcases hP with h | h
    · exact Or.inl h
    · right
      rw [h]
      rfl
  · refine le_trans ?_ hlen
    simpa using List.length_filter_le _ _
  · intro i hi
    rw [qIds] at hi
    obtain ⟨d, hd, hdi⟩ := List.mem_map.1 hi
    by_cases ht : timeout_filter now d
    · right
      rw [hlIds]
      refine List.mem_append.2 (Or.inr ?_)
      exact List.mem_map.2 ⟨d, List.mem_filter.2 ⟨hd, ht⟩, hdi⟩
    · left
      rw [hqIds]
      refine List.mem_map.2 ⟨d, List.mem_filter.2 ⟨hd, ?_⟩, hdi⟩
      simp [ht]
  · intro i hi
    rw [hlIds]
    exact List.mem_append.2 (Or.inl hi)

/-- Effect of `cancelPendingWith` (the shared body of the three cancel
entry points) on the invariant. -/
theorem cancelPendingWith_effect (e : ServerSidePublishEngine) (status : StatusCode)
    (hinv : EngineInv e) :
    EngineInv (e.cancelPendingWith status) ∧
    KeepsRecords e (e.cancelPendingWith status) ∧
    (e.cancelPendingWith status).isSessionClosed = e.isSessionClosed := by
  obtain ⟨hP, hlen, hmax, hgood⟩ := hinv
  rw [cancelPendingWith_spec]
  have hqIds : qIds { e with
      publish_request_queue := [],
      log := e.log ++ e.publish_request_queue.map
        (fun d => answered d (errorResponse status)) } = [] := rfl
  have hlIds : lIds { e with
      publish_request_queue := [],
      log := e.log ++ e.publish_request_queue.map
        (fun d => answered d (errorResponse status)) }
      = lIds e ++ qIds e := by
    simp only [lIds, List.map_append, map_fst_answered]
    rfl
  have hperm : List.Perm ([] ++ qIds e) (qIds e) := by simp
  have hcancel := combined_perm_of_answer hqIds hlIds hperm
  refine ⟨⟨Or.inr rfl, by simp, hmax,
    goodIds_of_perm hcancel (le_refl _) hgood⟩, ⟨?_, ?_⟩, rfl⟩
  · intro i hi
    right
    rw [hlIds]
    exact List.mem_append.2 (Or.inr hi)
  · intro i hi
    rw [hlIds]
    exact List.mem_append.2 (Or.inl hi)

/-- Effect of `on_close_subscription` on the invariant. -/
theorem on_close_subscription_effect (e : ServerSidePublishEngine)
    (subscription : Subscr) (now : Nat) (hinv : EngineInv e) :
    EngineInv (e.on_close_subscription subscription now) ∧
    KeepsRecords e (e.on_close_subscription subscription now) ∧
    (e.on_close_subscription subscription now).isSessionClosed = e.isSessionClosed := by
  unfold on_close_subscription
  dsimp only
  set e1 : ServerSidePublishEngine :=
    if subscription.hasPendingNotifications = true then
      { e with closed_subscriptions := e.closed_subscriptions ++ [subscription] }
    else e with he1
  set e2 : ServerSidePublishEngine :=
    { e1 with subscriptions :=
        e1.subscriptions.filter (fun t => t.id != subscription.id) } with he2
  have hinv2 : EngineInv e2 := by
    have : EngineInv e1 := by
      rw [he1]
      by_cases hb : subscription.hasPendingNotifications = true
      · rw [if_pos hb]
        exact hinv
      · rw [if_neg hb]
        exact hinv
    exact this
  have hqe2 : e2.publish_request_queue = e.publish_request_queue := by
    rw [he2, he1]
    by_cases hb : subscription.hasPendingNotifications = true
    · rw [if_pos hb]
    · rw [if_neg hb]
  have hle2 : e2.log = e.log := by
    rw [he2, he1]
    by_cases hb : subscription.hasPendingNotifications = true
    · rw [if_pos hb]
    · rw [if_neg hb]
  have hfe2 : e2.isSessionClosed = e.isSessionClosed := by
    rw [he2, he1]
    by_cases hb : subscription.hasPendingNotifications = true
    · rw [if_pos hb]
    · rw [if_neg hb]
  have hkeep2 : KeepsRecords e e2 := by
    refine ⟨fun i hi => Or.inl ?_, fun i hi => ?_⟩
    · rw [qIds, hqe2]; exact hi
    · rw [lIds, hle2]; exact hi
  by_cases hc : e2.subscriptionCount = 0
  · rw [if_pos hc]
    unfold cancelPendingPublishRequest
    have hd : ConsumesPrefix e2 (drainClosedLoop e2 now) ∧
        (drainClosedLoop e2 now).subscriptions = e2.subscriptions ∧
        (drainClosedLoop e2 now).maxPublishRequestInQueue = e2.maxPublishRequestInQueue ∧
        (drainClosedLoop e2 now).isSessionClosed = e2.isSessionClosed ∧
        (drainClosedLoop e2 now).nextCallbackId = e2.nextCallbackId ∧
        ((e2.publish_response_queue = [] ∨ e2.publish_request_queue = []) →
          ((drainClosedLoop e2 now).publish_response_queue = [] ∨
            (drainClosedLoop e2 now).publish_request_queue = [])) ∧
        (drainClosedLoop e2 now).publish_request_queue.length
          ≤ e2.publish_request_queue.length :=
      drainClosedLoopFuel_spec now (e2.closed_subscriptions.length + 1) e2
    have hinv3 : EngineInv (drainClosedLoop e2 now) := by
      obtain ⟨hP2, hlen2, hmax2, hgood2⟩ := hinv2
      refine ⟨hd.2.2.2.2.2.1 hP2, ?_,
        by rw [hd.2.2.1]; exact hmax2,
        goodIds_of_perm (consumesPrefix_combined_perm hd.1) (by rw [hd.2.2.2.2.1]) hgood2⟩
      rw [hd.2.2.1]
      exact le_trans hd.2.2.2.2.2.2 hlen2
    have hcw := cancelPendingWith_effect (drainClosedLoop e2 now)
      StatusCode.BadNoSubscription hinv3
    refine ⟨hcw.1, ?_, ?_⟩
    · exact keepsRecords_trans hkeep2
        (keepsRecords_trans (consumesPrefix_keeps hd.1) hcw.2.1)
    · rw [hcw.2.2]
      rw [hd.2.2.2.1]
      exact hfe2
  · rw [if_neg hc]
    exact ⟨hinv2, hkeep2, hfe2⟩

/-- Every public operation preserves the engine invariant; every operation
other than `shutdown` keeps all accepted records (each stays queued or is
answered); and no operation ever resets `isSessionClosed`. -/
theorem step_effect {e : ServerSidePublishEngine} {op : Op} {e' : ServerSidePublishEngine}
    (hs : Step e op e') (hinv : EngineInv e) :
    EngineInv e' ∧
    (op ≠ Op.shutdownOp → KeepsRecords e e') ∧
    (e.isSessionClosed = true → e'.isSessionClosed = true) := by
  cases hs with
  | publishRequest request emit now =>
      have h := _on_PublishRequest_effect e request emit now hinv
      exact ⟨h.1, fun _ => h.2.1, fun hf => by rw [h.2.2.2.2]; exact hf⟩
  | notifyMsg param force now hpre =>
      have h := send_notification_message_effect e param force now hinv
      exact ⟨h.1, fun _ => h.2.1, fun hf => by rw [h.2.2]; exact hf⟩
  | keepAlive subscriptionId future_sequence_number now =>
      rcases send_keep_alive_response_cases e subscriptionId future_sequence_number now with
        h | h
      · rw [h]
        exact ⟨hinv, fun _ => keepsRecords_refl e, fun hf => hf⟩
      · rw [h]
        have h2 := send_notification_message_effect e
          { subscriptionId := subscriptionId, sequenceNumber := future_sequence_number,
            notificationData := [], moreNotifications := false } false now hinv
        exact ⟨h2.1, fun _ => h2.2.1, fun hf => by rw [h2.2.2]; exact hf⟩
  | tick now =>
      have h := _cancelTimeoutRequests_effect e now hinv
      exact ⟨h.1, fun _ => h.2.1, fun hf => by
        have : (e._on_tick now) = e._cancelTimeoutRequests now := rfl
        rw [this, h.2.2]; exact hf⟩
  | addSub subscription hfresh =>
      exact ⟨hinv, fun _ => keepsRecords_refl e, fun hf => hf⟩
  | detachSub subscription hown =>
      exact ⟨hinv, fun _ => keepsRecords_refl e, fun hf => hf⟩
  | closeSub subscription now hown =>
      have h := on_close_subscription_effect e subscription now hinv
      exact ⟨h.1, fun _ => h.2.1, fun hf => by rw [h.2.2]; exact hf⟩
  | sessionClose =>
      have hinv1 : EngineInv { e with isSessionClosed := true } := hinv
      have h := cancelPendingWith_effect { e with isSessionClosed := true }
        StatusCode.BadSessionClosed hinv1
      refine ⟨h.1, fun _ => h.2.1, fun _ => ?_⟩
      have : e.onSessionClose
          = { e with isSessionClosed := true }.cancelPendingWith
              StatusCode.BadSessionClosed := rfl
      rw [this, h.2.2]
  | channelChange =>
      have h := cancelPendingWith_effect e StatusCode.BadSecureChannelClosed hinv
      exact ⟨h.1, fun _ => h.2.1, fun hf => by
        have : e.cancelPendingPublishRequestBeforeChannelChange
            = e.cancelPendingWith StatusCode.BadSecureChannelClosed := rfl
        rw [this, h.2.2]; exact hf⟩
  | shutdownStep hcnt =>
      obtain ⟨hP, hlen, hmax, hgood⟩ := hinv
      refine ⟨⟨Or.inl rfl, by simp [shutdown], hmax, ?_⟩, fun hop => absurd rfl hop,
        fun hf => hf⟩
      refine @goodIds_of_sublist e e.shutdown ?_ (le_refl _) hgood
      have : combinedIds e.shutdown = lIds e := by
        simp [combinedIds, qIds, lIds, shutdown]
      rw [this]
      exact List.sublist_append_right _ _
  | environment subs closed =>
      exact ⟨hinv, fun _ => keepsRecords_refl e, fun hf => hf⟩

/-- The freshly constructed engine satisfies the invariant. -/
theorem mkEngine_EngineInv (options : Nat) : EngineInv (mkEngine options) := by
  unfold mkEngine EngineInv goodIds combinedIds qIds lIds
  dsimp only
  refine ⟨Or.inl rfl, by simp, ?_, by simp, by simp⟩
  by_cases h : options = 0
  · rw [if_pos h]; omega
  · rw [if_neg h]; omega

/-- The engine invariant holds in every reachable state. -/
theorem reachable_EngineInv {e : ServerSidePublishEngine} (h : Reachable e) :
    EngineInv e := by
  induction h with
  | init options => exact mkEngine_EngineInv options
  | step hr hs ih => exact (step_effect hs ih).1

/-! ## The feed-late first branch: the lodash sortBy -/

theorem insertByTTE_length (x : Subscr) :
    ∀ l : List Subscr, (insertByTTE x l).length = l.length + 1 := by
  intro l
  induction l with
  | nil => rfl
  | cons y ys ih =>
      unfold insertByTTE
      by_cases hc : x.timeToExpiration < y.timeToExpiration
      · rw [if_pos hc]; rfl
      · rw [if_neg hc]
        simp [ih]

theorem sortByTimeToExpiration_length (l : List Subscr) :
    (sortByTimeToExpiration l).length = l.length := by
  induction l with
  | nil => rfl
  | cons x xs ih =>
      unfold sortByTimeToExpiration at *
      simp only [List.foldr_cons]
      rw [insertByTTE_length, ih]
      rfl

theorem sortByTTE_head_min :
    ∀ (l : List Subscr) (s : Subscr) (rest : List Subscr),
      sortByTimeToExpiration l = s :: rest →
      s ∈ l ∧ ∀ t ∈ l, s.timeToExpiration ≤ t.timeToExpiration := by
  intro l
  induction l with
  | nil => intro s rest h; cases h
  | cons x xs ih =>
      intro s rest h
      unfold sortByTimeToExpiration at h
      simp only [List.foldr_cons] at h
      rcases hs : sortByTimeToExpiration xs with _ | ⟨y, ys⟩
      · have hxs : xs = [] := by
          have := sortByTimeToExpiration_length xs
          rw [hs] at this
          exact List.length_eq_zero.1 this.symm
        rw [sortByTimeToExpiration] at hs
        rw [hs] at h
        unfold insertByTTE at h
        cases h
        refine ⟨List.mem_cons_self _ _, fun t ht => ?_⟩
        rcases List.mem_cons.1 ht with rfl | ht2
        · exact le_refl _
        · rw [hxs] at ht2; cases ht2
      · obtain ⟨hymem, hymin⟩ := ih y ys hs
        rw [sortByTimeToExpiration] at hs
        rw [hs] at h
        unfold insertByTTE at h
        by_cases hc : x.timeToExpiration < y.timeToExpiration
        · rw [if_pos hc] at h
          cases h
          refine ⟨List.mem_cons_self _ _, fun t ht => ?_⟩
          rcases List.mem_cons.1 ht with rfl | ht2
          · exact le_refl _
          · exact le_trans (le_of_lt hc) (hymin t ht2)
        · rw [if_neg hc] at h
          cases h
          refine ⟨List.mem_cons_of_mem _ hymem, fun t ht => ?_⟩
          rcases List.mem_cons.1 ht with rfl | ht2
          · omega
          · exact hymin t ht2

theorem findSubscriptionWaitingForFirstPublish_spec (e : ServerSidePublishEngine)
    (s : Subscr) (h : e.findSubscriptionWaitingForFirstPublish = some s) :
    s ∈ e.subscriptions.filter
        (fun subscription => !subscription.messageSent
          && subscription.state == SubState.LATE) ∧
    ∀ t ∈ e.subscriptions.filter
        (fun subscription => !subscription.messageSent
          && subscription.state == SubState.LATE),
      s.timeToExpiration ≤ t.timeToExpiration := by
  unfold findSubscriptionWaitingForFirstPublish at h
  dsimp only at h
  rcases hs : sortByTimeToExpiration (e.subscriptions.filter
      (fun subscription => !subscription.messageSent
        && subscription.state == SubState.LATE)) with _ | ⟨y, ys⟩
  · rw [hs] at h; cases h
  · rw [hs] at h
    cases h
    exact sortByTTE_head_min _ _ _ hs

/-! ## The claims -/

/-- C1: In every engine state reachable from a freshly constructed
`ServerSidePublishEngine` by any sequence of public operations
(`_on_PublishRequest`, `send_notification_message`,
`send_keep_alive_response`, `_on_tick`, `add_subscription`,
`detach_subscription`, `on_close_subscription`, `onSessionClose`,
`cancelPendingPublishRequestBeforeChannelChange`, `shutdown`), the stashed
publish-response queue is empty or the pending publish-request queue is
empty. -/
theorem c1_response_or_request_queue_empty (e : ServerSidePublishEngine)
    (h : Reachable e) :
    e.publish_response_queue = [] ∨ e.publish_request_queue = [] :=
  (reachable_EngineInv h).1

/-- C1 witness: the invariant, instantiated on the concrete state reached
by admitting one publish request into a fresh engine holding one (never
late) subscription. -/
theorem c1_witness :
    cex2Queued.publish_response_queue = [] ∨ cex2Queued.publish_request_queue = [] :=
  c1_response_or_request_queue_empty cex2Queued
    (Reachable.step
      (Reachable.step (Reachable.init 0)
        (Step.addSub (mkEngine 0) fixtureSubscr (by decide)))
      (Step.publishRequest ((mkEngine 0).add_subscription fixtureSubscr)
        (fixtureRequest 1 0) none 0))

/-- C5: `_on_tick` removes from the pending queue and answers with a
status-only `BadTimeout` response exactly those records whose
`timeout_time` is non-zero and strictly below `now`; `prepare_timeout_info`
derives `timeout_time = received_time + timeoutHint` for a positive hint
and `0` otherwise, and a request admitted with `timeoutHint = 0` is never
selected by the timeout filter, however large `now` grows. -/
theorem c5_tick_purges_exactly_timed_out (e : ServerSidePublishEngine) (now : Nat)
    (request : PublishRequest) (t : Nat) :
    (e._on_tick now).publish_request_queue
      = e.publish_request_queue.filter (fun d => !(timeout_filter now d)) ∧
    (e._on_tick now).log
      = e.log ++ (e.publish_request_queue.filter (timeout_filter now)).map
          (fun d => answered d (errorResponse StatusCode.BadTimeout)) ∧
    (∀ d : PublishData, timeout_filter now d = true ↔
      (d.request.timeout_time ≠ 0 ∧ d.request.timeout_time < now)) ∧
    (prepare_timeout_info request t).received_time = t ∧
    (prepare_timeout_info request t).timeout_time
      = (if request.requestHeader.timeoutHint > 0
          then t + request.requestHeader.timeoutHint else 0) ∧
    (request.requestHeader.timeoutHint = 0 →
      ∀ (now2 : Nat) (results : List StatusCode) (callbackId : Nat),
        timeout_filter now2
          { request := prepare_timeout_info request t,
            results := results, callbackId := callbackId } = false) := by
  have htick : e._on_tick now = e._cancelTimeoutRequests now := rfl
  refine ⟨?_, ?_, ?_, rfl, rfl, ?_⟩
  · rw [htick, _cancelTimeoutRequests_spec]
  · rw [htick, _cancelTimeoutRequests_spec]
  · intro d
    unfold timeout_filter
    by_cases h : d.request.timeout_time = 0
    · rw [if_pos h]
      simp [h]
    · rw [if_neg h]
      simp [h]
  · intro h0 now2 results callbackId
    unfold timeout_filter prepare_timeout_info
    simp [h0]

/-- C5 witness: on an engine holding one record with deadline 50 and one
with no deadline, the tick at time 99 purges exactly the first. -/
theorem c5_witness :
    (cexTimeoutEngine._on_tick 99).publish_request_queue = [fixtureRecord 1 2 0] ∧
    (cexTimeoutEngine._on_tick 99).log.map Prod.fst = [0] ∧
    (fixtureRequest 4 0).requestHeader.timeoutHint = 0 ∧
    timeout_filter 1000000
      { request := prepare_timeout_info (fixtureRequest 4 0) 3,
        results := [], callbackId := 5 } = false := by
  have h := c5_tick_purges_exactly_timed_out cexTimeoutEngine 99 (fixtureRequest 4 0) 3
  refine ⟨?_, ?_, rfl, h.2.2.2.2.2 rfl 1000000 [] 5⟩
  · rw [h.1]; decide
  · rw [h.2.1]; decide

/-- C9 counterexample: with a publish request pending but a `subscriptionId`
that resolves to no live subscription, `send_keep_alive_response` returns
`false` and delivers nothing, while the claim as stated requires it to
deliver a keep-alive and return `true` whenever a request is pending. -/
theorem c9_counterexample :
    cexQueuedEngine.publish_request_queue ≠ [] ∧
    cexQueuedEngine.getSubscriptionById 5 = none ∧
    cexQueuedEngine.send_keep_alive_response 5 1 0 = (cexQueuedEngine, false) := by
  refine ⟨by decide, rfl, rfl⟩

/-- C9 (amended): provided the `subscriptionId` resolves to a live
subscription, `send_keep_alive_response` returns `false` when no publish
request is pending, and otherwise delivers — via
`send_notification_message` — a response whose notification message has
`sequenceNumber = future_sequence_number`, empty `notificationData` and
`moreNotifications = false` to the oldest pending request, and returns
`true`. -/
theorem c9_keep_alive_response (e : ServerSidePublishEngine)
    (subscriptionId future_sequence_number now : Nat) (s : Subscr)
    (hsub : e.getSubscriptionById subscriptionId = some s) :
    (e.publish_request_queue = [] →
      e.send_keep_alive_response subscriptionId future_sequence_number now = (e, false)) ∧
    (∀ d rest, e.publish_request_queue = d :: rest →
      (e.send_keep_alive_response subscriptionId future_sequence_number now).2 = true ∧
      (e.send_keep_alive_response subscriptionId future_sequence_number now).1
        = { e with
              publish_request_queue := rest,
              log := e.log ++ [answered d (e.notificationResponse
                { subscriptionId := subscriptionId,
                  sequenceNumber := future_sequence_number,
                  notificationData := [], moreNotifications := false } now)] }) ∧
    (e.notificationResponse
        { subscriptionId := subscriptionId, sequenceNumber := future_sequence_number,
          notificationData := [], moreNotifications := false } now).notificationMessage
      = some { sequenceNumber := future_sequence_number, publishTime := now,
               notificationData := [] } ∧
    (e.notificationResponse
        { subscriptionId := subscriptionId, sequenceNumber := future_sequence_number,
          notificationData := [], moreNotifications := false } now).moreNotifications
      = false := by
  refine ⟨?_, ?_, rfl, rfl⟩
  · intro hq
    unfold send_keep_alive_response
    rw [hsub]
    dsimp only
    rw [if_pos (by rw [pendingPublishRequestCount, hq]; rfl)]
  · intro d rest hq
    have hcase : e.send_keep_alive_response subscriptionId future_sequence_number now
        = (e.send_notification_message
            { subscriptionId := subscriptionId,
              sequenceNumber := future_sequence_number,
              notificationData := [], moreNotifications := false } false now, true) := by
      unfold send_keep_alive_response
      rw [hsub]
      dsimp only
      rw [if_neg (by rw [pendingPublishRequestCount, hq]; simp)]
    rw [hcase]
    refine ⟨rfl, ?_⟩
    rcases send_notification_message_cases e
        { subscriptionId := subscriptionId, sequenceNumber := future_sequence_number,
          notificationData := [], moreNotifications := false } false now with
      ⟨hq2, _⟩ | ⟨d2, rest2, hq2, heq2⟩
    · rw [hq] at hq2; cases hq2
    · rw [hq] at hq2
      cases hq2
      exact heq2

/-- C9 witness: concrete keep-alive delivery on an engine with one
pending request and one subscription. -/
theorem c9_witness :
    (cexLateEngine.send_keep_alive_response 2 33 8).2 = true ∧
    lIds (cexLateEngine.send_keep_alive_response 2 33 8).1 = [0] := by
  have h := (c9_keep_alive_response cexLateEngine 2 33 8 cexLateSub1 rfl).2.1
    (fixtureRecord 0 1 0) [] rfl
  refine ⟨h.1, ?_⟩
  rw [h.2]
  decide

/-- C10: when `param.subscriptionId` is not a key of the engine's
subscription map, `send_notification_message` still builds the
`PublishResponse` — with `availableSequenceNumbers = []` — and either
delivers it to the oldest pending request or stashes it. -/
theorem c10_unknown_subscription (e : ServerSidePublishEngine) (param : NotifParam)
    (force : Bool) (now : Nat)
    (hunknown : e.getSubscriptionById param.subscriptionId = none)
    (_hpre : 0 < e.pendingPublishRequestCount ∨ force = true) :
    (e.notificationResponse param now).availableSequenceNumbers = [] ∧
    ((e.publish_request_queue = [] ∧
        e.send_notification_message param force now
          = { e with publish_response_queue :=
                e.publish_response_queue ++ [e.notificationResponse param now] }) ∨
      (∃ d rest, e.publish_request_queue = d :: rest ∧
        e.send_notification_message param force now
          = { e with
                publish_request_queue := rest,
                log := e.log ++ [answered d (e.notificationResponse param now)] })) := by
  constructor
  · unfold notificationResponse
    rw [hunknown]
  · exact send_notification_message_cases e param force now

/-- C10 witness: a notification for an unknown subscription id on an
engine with one pending request is delivered with an empty
`availableSequenceNumbers`. -/
theorem c10_witness :
    (cexQueuedEngine.notificationResponse (fixtureNotif 42 7) 1).availableSequenceNumbers
      = [] ∧
    (cexQueuedEngine.send_notification_message (fixtureNotif 42 7) false 1
      ).publish_request_queue = [] ∧
    lIds (cexQueuedEngine.send_notification_message (fixtureNotif 42 7) false 1) = [0] := by
  have h := c10_unknown_subscription cexQueuedEngine (fixtureNotif 42 7) false 1 rfl
    (Or.inl (by decide))
  refine ⟨h.1, by decide, by decide⟩

/-- C3: after every `_on_PublishRequest` on a reachable engine the request
queue respects `maxPublishRequestInQueue`; the admission stage can exceed
the bound only by exactly one, in which case nothing was consumed and the
newly admitted record sits at the back; and on a queue exactly one over
the bound `_handle_too_many_requests` removes exactly the oldest record,
answers it `BadTooManyPublishRequests`, and leaves the rest — in
particular the newly admitted last record — queued. -/
theorem c3_bound_and_eviction (e : ServerSidePublishEngine)
    (request : PublishRequest) (emit : Option NotifParam) (now : Nat)
    (h : Reachable e) :
    (e._on_PublishRequest request emit now).publish_request_queue.length
      ≤ e.maxPublishRequestInQueue ∧
    (∀ pd : PublishData,
      (admissionStage { e with nextCallbackId := e.nextCallbackId + 1 } pd emit now
        ).publish_request_queue.length ≤ e.maxPublishRequestInQueue + 1 ∧
      ((admissionStage { e with nextCallbackId := e.nextCallbackId + 1 } pd emit now
          ).publish_request_queue.length = e.maxPublishRequestInQueue + 1 →
        (admissionStage { e with nextCallbackId := e.nextCallbackId + 1 } pd emit now
          ).publish_request_queue
          = e.publish_request_queue
            ++ [{ pd with request := prepare_timeout_info pd.request now }])) ∧
    (∀ (e2 : ServerSidePublishEngine) (d : PublishData) (rest : List PublishData),
      e2.publish_request_queue = d :: rest →
      e2.publish_request_queue.length = e2.maxPublishRequestInQueue + 1 →
      1 ≤ e2.maxPublishRequestInQueue →
      e2._handle_too_many_requests.publish_request_queue = rest ∧
      e2._handle_too_many_requests.log
        = e2.log ++ [answered d (errorResponse StatusCode.BadTooManyPublishRequests)] ∧
      e2._handle_too_many_requests.publish_request_queue.getLast?
        = e2.publish_request_queue.getLast?) := by
  obtain ⟨hP, hlen, hmax, hgood⟩ := reachable_EngineInv h
  have heff := _on_PublishRequest_effect e request emit now (reachable_EngineInv h)
  refine ⟨?_, ?_, ?_⟩
  · have h1 := heff.1.2.1
    have h2 := heff.2.2.2.1
    omega
  · intro pd
    have hadm := admissionStage_spec { e with nextCallbackId := e.nextCallbackId + 1 }
      pd emit now
    obtain ⟨n, hq, _⟩ := hadm.1
    have hlenPush :
        ({ { e with nextCallbackId := e.nextCallbackId + 1 } with
            publish_request_queue :=
              { e with nextCallbackId := e.nextCallbackId + 1 }.publish_request_queue
                ++ [{ pd with request := prepare_timeout_info pd.request now }] }
          : ServerSidePublishEngine).publish_request_queue.length
          = e.publish_request_queue.length + 1 := by simp
    constructor
    · rw [hq, List.length_drop, hlenPush]
      omega
    · intro hover
      have hlenEq : (admissionStage { e with nextCallbackId := e.nextCallbackId + 1 }
          pd emit now).publish_request_queue.length
          = e.publish_request_queue.length + 1 := by
        rw [hq, List.length_drop] at hover ⊢
        rw [hlenPush] at hover ⊢
        omega
      have := consumesPrefix_len_eq hadm.1 (by rw [hlenEq, hlenPush])
      rw [this]
  · intro e2 d rest hq2 hlen2 hmax2
    have hgt : e2.pendingPublishRequestCount > e2.maxPublishRequestInQueue := by
      rw [pendingPublishRequestCount]
      omega
    have heq := _handle_too_many_requests_of_gt e2 d rest hq2 hgt
    rw [heq]
    refine ⟨rfl, rfl, ?_⟩
    rw [hq2]
    rcases rest with _ | ⟨d2, rest2⟩
    · rw [hq2] at hlen2
      simp at hlen2
      omega
    · rw [List.getLast?_cons_cons]

/-- C3 witness: a fresh engine with `maxPublishRequestInQueue = 1`, one
record queued, whose too-many step evicts the oldest and keeps the newest. -/
theorem c3_witness :
    (cex2Queued._on_PublishRequest (fixtureRequest 2 0) none 1
        ).publish_request_queue.length ≤ cex2Queued.maxPublishRequestInQueue ∧
    cex3Over._handle_too_many_requests.publish_request_queue
      = [fixtureRecord 1 2 0] ∧
    lIds cex3Over._handle_too_many_requests = [0] := by
  have hreach : Reachable cex2Queued :=
    Reachable.step
      (Reachable.step (Reachable.init 0)
        (Step.addSub (mkEngine 0) fixtureSubscr (by decide)))
      (Step.publishRequest ((mkEngine 0).add_subscription fixtureSubscr)
        (fixtureRequest 1 0) none 0)
  have h := c3_bound_and_eviction cex2Queued (fixtureRequest 2 0) none 1 hreach
  have h3 := h.2.2 cex3Over
    (fixtureRecord 0 1 0) [fixtureRecord 1 2 0] rfl (by decide) (by decide)
  refine ⟨h.1, h3.1, ?_⟩
  rw [lIds, h3.2.1]
  decide

/-- C7: `onSessionClose` answers every pending publish request with a
status-only `BadSessionClosed` response, clears the queue and sets
`isSessionClosed`; no later public operation ever clears the flag; a
subsequent `_on_PublishRequest` finding no stashed response is answered
immediately with `BadSessionClosed` and enqueues nothing; and a stashed
response, when present, is still delivered in preference. -/
theorem c7_session_close (e : ServerSidePublishEngine) :
    e.onSessionClose.publish_request_queue = [] ∧
    e.onSessionClose.isSessionClosed = true ∧
    e.onSessionClose.log
      = e.log ++ e.publish_request_queue.map
          (fun d => answered d (errorResponse StatusCode.BadSessionClosed)) ∧
    (∀ (e2 : ServerSidePublishEngine) (op : Op) (e3 : ServerSidePublishEngine),
      Reachable e2 → Step e2 op e3 → e2.isSessionClosed = true →
      e3.isSessionClosed = true) ∧
    (∀ (e2 : ServerSidePublishEngine) (request : PublishRequest)
        (emit : Option NotifParam) (now : Nat),
      e2.isSessionClosed = true → e2.publish_response_queue = [] →
      (e2._on_PublishRequest request emit now).publish_request_queue
        = e2.publish_request_queue ∧
      (e2._on_PublishRequest request emit now).log
        = e2.log ++ [answered (e2.incomingPublishData request)
            (errorResponse StatusCode.BadSessionClosed)]) ∧
    (∀ (e2 : ServerSidePublishEngine) (request : PublishRequest)
        (emit : Option NotifParam) (now : Nat) (r : PublishResponse)
        (rest : List PublishResponse),
      e2.publish_response_queue = r :: rest →
      (e2._on_PublishRequest request emit now).publish_response_queue = rest ∧
      (e2._on_PublishRequest request emit now).log
        = e2.log ++ [answered (e2.incomingPublishData request) r]) := by
  have hsc : e.onSessionClose
      = ({ e with isSessionClosed := true } : ServerSidePublishEngine).cancelPendingWith
          StatusCode.BadSessionClosed := rfl
  refine ⟨?_, ?_, ?_, ?_, ?_, ?_⟩
  · rw [hsc, cancelPendingWith_spec]
  · rw [hsc, cancelPendingWith_spec]
  · rw [hsc, cancelPendingWith_spec]
  · intro e2 op e3 hr hs hflag
    exact (step_effect hs (reachable_EngineInv hr)).2.2 hflag
  · intro e2 request emit now hflag hresp
    rcases _on_PublishRequest_cases e2 request emit now with
      ⟨r, rest, hr2, _⟩ | ⟨_, _, heq⟩ | ⟨_, hflag2, _, _, _⟩ |
      ⟨_, hflag2, _, _, _⟩ | ⟨_, hflag2, _, _⟩
    · rw [hresp] at hr2; cases hr2
    · rw [heq]
      exact ⟨rfl, rfl⟩
    · rw [hflag] at hflag2; cases hflag2
    · rw [hflag] at hflag2; cases hflag2
    · rw [hflag] at hflag2; cases hflag2
  · intro e2 request emit now r rest hresp
    rcases _on_PublishRequest_cases e2 request emit now with
      ⟨r2, rest2, hr2, heq⟩ | ⟨hr2, _, _⟩ | ⟨hr2, _, _, _, _⟩ |
      ⟨hr2, _, _, _, _⟩ | ⟨hr2, _, _, _⟩
    · rw [hresp] at hr2
      cases hr2
      rw [heq]
      exact ⟨rfl, rfl⟩
    · rw [hresp] at hr2; cases hr2
    · rw [hresp] at hr2; cases hr2
    · rw [hresp] at hr2; cases hr2
    · rw [hresp] at hr2; cases hr2

/-- C7 witness: closing the session on an engine with one pending request
answers it with `BadSessionClosed`, and the next `_on_PublishRequest` is
rejected immediately without being enqueued. -/
theorem c7_witness :
    cexQueuedEngine.onSessionClose.publish_request_queue = [] ∧
    cexQueuedEngine.onSessionClose.isSessionClosed = true ∧
    lIds cexQueuedEngine.onSessionClose = [0] ∧
    (cexQueuedEngine.onSessionClose._on_PublishRequest (fixtureRequest 9 0) none 2
      ).publish_request_queue = [] ∧
    lIds (cexQueuedEngine.onSessionClose._on_PublishRequest (fixtureRequest 9 0) none 2)
      = [0, 1] := by
  have h := c7_session_close cexQueuedEngine
  have h5 := h.2.2.2.2.1 cexQueuedEngine.onSessionClose (fixtureRequest 9 0) none 2
    h.2.1 (by decide)
  refine ⟨h.1, h.2.1, by decide, ?_, ?_⟩
  · rw [h5.1, h.1]
  · rw [lIds, h5.2]
    decide

/-- C2 counterexample: a PublishRequest is accepted and queued (callback
id 0) on an engine whose only subscription never turns late; the
subscription is then detached and the engine shut down.  The final state
is reachable by public operations, the record is gone, yet no callback was
ever invoked — `shutdown` discards pending records without completing
them, contradicting the claim's "including by shutdown". -/
theorem c2_counterexample :
    Reachable cex2Final ∧
    qIds cex2Queued = [0] ∧
    cex2Final.publish_request_queue = [] ∧
    cex2Final.log = [] := by
  have h0 : Reachable (mkEngine 0) := Reachable.init 0
  have h1 : Reachable ((mkEngine 0).add_subscription fixtureSubscr) :=
    Reachable.step h0 (Step.addSub _ fixtureSubscr (by decide))
  have h2 : Reachable cex2Queued :=
    Reachable.step h1 (Step.publishRequest _ (fixtureRequest 1 0) none 0)
  have h3 : Reachable (cex2Queued.detach_subscription fixtureSubscr) :=
    Reachable.step h2 (Step.detachSub _ fixtureSubscr (by decide))
  exact ⟨Reachable.step h3 (Step.shutdownStep _ (by decide)),
    by decide, by decide, by decide⟩

/-- C2 (amended): along any reachable history no accepted record's
callback is invoked twice (the invocation log never repeats a callback
id); under every public operation except `shutdown` an accepted record is
never discarded without its callback being invoked (its id stays in the
queue or appears in the log, and the log is monotone); and the record
accepted by `_on_PublishRequest` itself always ends up queued or
answered.  `shutdown` is the exception: it discards the pending records
without invoking their callbacks. -/
theorem c2_exactly_once_except_shutdown (e : ServerSidePublishEngine)
    (h : Reachable e) :
    (lIds e).Nodup ∧
    (∀ (op : Op) (e' : ServerSidePublishEngine), Step e op e' → op ≠ Op.shutdownOp →
      (∀ i ∈ qIds e, i ∈ qIds e' ∨ i ∈ lIds e') ∧ (∀ i ∈ lIds e, i ∈ lIds e')) ∧
    (∀ (request : PublishRequest) (emit : Option NotifParam) (now : Nat),
      e.nextCallbackId ∈ qIds (e._on_PublishRequest request emit now) ∨
      e.nextCallbackId ∈ lIds (e._on_PublishRequest request emit now)) := by
  have hinv := reachable_EngineInv h
  refine ⟨?_, ?_, ?_⟩
  · exact List.Nodup.sublist (List.sublist_append_right _ _) hinv.2.2.2.1
  · intro op e' hs hop
    exact (step_effect hs hinv).2.1 hop
  · intro request emit now
    exact (_on_PublishRequest_effect e request emit now hinv).2.2.1

/-- C2 witness: on the concrete reachable engine holding one queued
record, the log has no duplicates and a newly accepted record is queued
or answered. -/
theorem c2_witness :
    (lIds cex2Queued).Nodup ∧
    (cex2Queued.nextCallbackId
        ∈ qIds (cex2Queued._on_PublishRequest (fixtureRequest 2 0) none 1) ∨
      cex2Queued.nextCallbackId
        ∈ lIds (cex2Queued._on_PublishRequest (fixtureRequest 2 0) none 1)) := by
  have hreach : Reachable cex2Queued :=
    Reachable.step
      (Reachable.step (Reachable.init 0)
        (Step.addSub (mkEngine 0) fixtureSubscr (by decide)))
      (Step.publishRequest ((mkEngine 0).add_subscription fixtureSubscr)
        (fixtureRequest 1 0) none 0)
  have h := c2_exactly_once_except_shutdown cex2Queued hreach
  exact ⟨h.1, h.2.2 (fixtureRequest 2 0) none 1⟩

/-- C6 counterexample: an engine with `subscriptionCount = 0`, an open
session, an empty stashed-response queue, a closed-drain head with one
pending notification — and one OLD record already waiting.  The call
enqueues the new record (id 1) and the closed-drain step consumes the
OLDEST record (id 0), not the just-enqueued one, which stays queued. -/
theorem c6_counterexample :
    cex6Start.subscriptionCount = 0 ∧
    cex6Start.isSessionClosed = false ∧
    cex6Start.publish_response_queue = [] ∧
    cex6Start.closed_subscriptions.map Subscr.hasPendingNotifications = [true] ∧
    cex6Start.publish_request_queue.length = 1 ∧
    qIds (cex6Start._on_PublishRequest (fixtureRequest 2 0) none 5) = [1] ∧
    lIds (cex6Start._on_PublishRequest (fixtureRequest 2 0) none 5) = [0] := by
  exact ⟨rfl, rfl, rfl, by decide, rfl, by decide, by decide⟩

/-- C6 (amended): for every call of `_on_PublishRequest` on an engine with
`subscriptionCount = 0`, `isSessionClosed = false`, an empty
stashed-response queue AND an empty pending-request queue: if the head of
the closed-drain list has pending notifications, the new record is
enqueued and one closed-drain step consumes exactly the just-enqueued
record (so the pending queue keeps its length); otherwise the request is
answered immediately with a status-only `BadNoSubscription` response and
the queue is unchanged. -/
theorem c6_closed_drain (e : ServerSidePublishEngine) (request : PublishRequest)
    (emit : Option NotifParam) (now : Nat)
    (hcnt : e.subscriptionCount = 0) (hflag : e.isSessionClosed = false)
    (hresp : e.publish_response_queue = []) (hq : e.publish_request_queue = []) :
    ((∃ c crest, e.closed_subscriptions = c :: crest ∧ c.hasPendingNotifications = true) →
      (e._on_PublishRequest request emit now).publish_request_queue
        = e.publish_request_queue ∧
      lIds (e._on_PublishRequest request emit now) = lIds e ++ [e.nextCallbackId]) ∧
    ((∀ c crest, e.closed_subscriptions = c :: crest → c.hasPendingNotifications = false) →
      (e._on_PublishRequest request emit now).publish_request_queue
        = e.publish_request_queue ∧
      (e._on_PublishRequest request emit now).log
        = e.log ++ [answered (e.incomingPublishData request)
            (errorResponse StatusCode.BadNoSubscription)]) := by
  rcases _on_PublishRequest_cases e request emit now with
    ⟨r, rest, hr2, _⟩ | ⟨_, hflag2, _⟩ | ⟨hr2, hflag2, hcnt2, ⟨c, crest, hcl, hcp⟩, heq⟩ |
    ⟨hr2, hflag2, hcnt2, hnp, heq⟩ | ⟨hr2, hflag2, hcnt2, heq⟩
  · rw [hresp] at hr2; cases hr2
  · rw [hflag] at hflag2; cases hflag2
  · constructor
    · intro _
      rw [heq]
      set ePush : ServerSidePublishEngine :=
        { e with
            publish_request_queue :=
              e.publish_request_queue ++ [e.incomingPublishData request],
            nextCallbackId := e.nextCallbackId + 1 } with hPush
      have hfires := _feed_closed_subscription_fires ePush now c crest
        (by simp [hPush, pendingPublishRequestCount]) (by simp [hPush, hcl]) hcp
      have h2 : (ePush._feed_closed_subscription now).2 = true := by rw [hfires]
      have hfc := _feed_closed_subscription_spec ePush now
      obtain ⟨n, hqn, hln⟩ := hfc.1
      have hdec := (hfc.2.2.2.2.2.2 h2).2
      have hqPush : ePush.publish_request_queue = [e.incomingPublishData request] := by
        simp [hPush, hq]
      rw [hqPush] at hqn hln hdec
      have hn : 1 ≤ n := by
        rw [hqn, List.length_drop] at hdec
        simp at hdec
        omega
      constructor
      · rw [hq, hqn]
        exact List.drop_eq_nil_of_le (by simpa using hn)
      · rw [hln, List.take_of_length_le (by simpa using hn)]
        have hle : lIds ePush = lIds e := by simp [hPush, lIds]
        rw [hle]
        simp [incomingPublishData]
    · intro hnone
      obtain h := hnone c crest hcl
      rw [h] at hcp
      cases hcp
  · refine ⟨fun hex => ?_, fun _ => ?_⟩
    · obtain ⟨c, crest, hcl, hcp⟩ := hex
      have := hnp c crest hcl
      rw [this] at hcp
      cases hcp
    · rw [heq]
      exact ⟨rfl, rfl⟩
  · exact absurd hcnt hcnt2

/-- C6 witness: the drain on an engine with an empty queue consumes
exactly the just-enqueued record. -/
theorem c6_witness :
    (cex6Empty._on_PublishRequest (fixtureRequest 2 0) none 5).publish_request_queue
      = cex6Empty.publish_request_queue ∧
    lIds (cex6Empty._on_PublishRequest (fixtureRequest 2 0) none 5) = [0] := by
  have h := (c6_closed_drain cex6Empty (fixtureRequest 2 0) none 5 rfl rfl rfl rfl).1
    ⟨cex6Closed, [], rfl, by decide⟩
  refine ⟨h.1, ?_⟩
  rw [h.2]
  decide

/-- C4: the spec's priority-based selection does not hold of the program.
`compare_subscriptions` returns booleans, so `Array.prototype.sort` never
sees a negative comparator value and leaves the late list in map order
(implementation-defined per ECMA-262; a no-op under V8).  With one
pending publish request and two late publishing-enabled subscriptions of
priorities 5 and 3 in map order (both with `messageSent`), the feed-late
step invokes the PRIORITY-3 subscription, not the max-priority one: the
selection the spec describes diverges from the code's behaviour. -/
theorem c4_priority_ignored :
    cexLateEngine.pendingPublishRequestCount = 1 ∧
    cexLateSub1 ∈ cexLateEngine.findLateSubscriptions ∧
    cexLateSub1.priority = 5 ∧
    (cexLateEngine._feed_late_subscription none 0).2 = some cexLateSub2 ∧
    cexLateSub2.priority = 3 := by
  decide

/-! ## Subscription transfer (C8) -/

theorem find?_update_same (k : Nat) (ids : List Nat) :
    ∀ l : List (Nat × List Nat),
      (l.map (fun m => if m.1 == k then (m.1, ids) else m)).find? (fun m => m.1 == k)
        = (l.find? (fun m => m.1 == k)).map (fun m => (m.1, ids)) := by
  intro l
  induction l with
  | nil => rfl
  | cons m ms ih =>
      simp only [List.map_cons]
      by_cases h : (m.1 == k) = true
      · rw [if_pos h]
        simp [List.find?, h]
      · rw [if_neg h]
        simp only [List.find?, h]
        exact ih

theorem find?_update_other (k k' : Nat) (ids : List Nat) (hne : k' ≠ k) :
    ∀ l : List (Nat × List Nat),
      (l.map (fun m => if m.1 == k then (m.1, ids) else m)).find? (fun m => m.1 == k')
        = l.find? (fun m => m.1 == k') := by
  intro l
  induction l with
  | nil => rfl
  | cons m ms ih =>
      simp only [List.map_cons]
      by_cases h : (m.1 == k) = true
      · rw [if_pos h]
        by_cases h' : (m.1 == k') = true
        · exfalso
          apply hne
          have h1 : m.1 = k := by simpa using h
          have h2 : m.1 = k' := by simpa using h'
          rw [← h1, h2]
        · simp only [List.find?, h']
          exact ih
      · rw [if_neg h]
        by_cases h' : (m.1 == k') = true
        · simp [List.find?, h']
        · simp only [List.find?, h']
          exact ih

theorem mapOf_setMap_same (w : TransferWorld) (k : Nat) (ids : List Nat)
    (hmem : ∃ m, w.maps.find? (fun m => m.1 == k) = some m) :
    (w.setMap k ids).mapOf k = ids := by
  unfold TransferWorld.mapOf TransferWorld.setMap
  dsimp only
  rw [find?_update_same]
  obtain ⟨m, hm⟩ := hmem
  rw [hm]
  rfl

theorem mapOf_setMap_other (w : TransferWorld) (k k' : Nat) (ids : List Nat)
    (hne : k' ≠ k) : (w.setMap k ids).mapOf k' = w.mapOf k' := by
  unfold TransferWorld.mapOf TransferWorld.setMap
  dsimp only
  rw [find?_update_other k k' ids hne]

theorem find?_setMap_other (w : TransferWorld) (k k' : Nat) (ids : List Nat)
    (hne : k' ≠ k) :
    (w.setMap k ids).maps.find? (fun m => m.1 == k')
      = w.maps.find? (fun m => m.1 == k') := by
  unfold TransferWorld.setMap
  dsimp only
  rw [find?_update_other k k' ids hne]

/-- Closed form of `transferSubscription`: detach updates the source map,
attach updates the destination map, and the subscription record carries
the transfer event, the new back reference and the hook counters. -/
theorem transferSubscription_eq (w : TransferWorld) (destId srcId : Nat) (b : Bool)
    (hsrc : w.sub.publishEngine = some srcId) :
    w.transferSubscription destId b
      = { (w.setMap srcId ((w.mapOf srcId).filter (fun i => i != w.sub.id))).setMap destId
            ((w.setMap srcId ((w.mapOf srcId).filter (fun i => i != w.sub.id))).mapOf destId
              ++ [w.sub.id]) with
          sub := { id := w.sub.id,
                   publishEngine := some destId,
                   lifeTimeResetCount := w.sub.lifeTimeResetCount + 1,
                   resendInitialValuesCount :=
                     w.sub.resendInitialValuesCount + (if b then 1 else 0),
                   notifyTransferEvents := w.sub.notifyTransferEvents ++ [some srcId] } } := by
  unfold TransferWorld.transferSubscription TransferWorld.notifyTransfer
  rw [hsrc]
  cases b <;> rfl

/-- C8 counterexample: transferring a subscription to the engine it is
already attached to (`destPublishEngine = srcPublishEngine`) re-attaches
it, so afterwards the subscription is still PRESENT in E1's subscription
map — the claim's conjunct "s is absent from E1's subscription map" fails
for that instantiation, while the code completes the transfer without
complaint. -/
theorem c8_counterexample :
    cex8World.sub.publishEngine = some 1 ∧
    (cex8World.transferSubscription 1 true).sub.publishEngine = some 1 ∧
    cex8World.sub.id ∈ (cex8World.transferSubscription 1 true).mapOf 1 := by
  exact ⟨rfl, by decide, by decide⟩

/-- C8 (amended): for every subscription attached to a source engine E1
and every destination engine E2 DISTINCT from E1 (both engines existing,
the subscription not yet in E2's map), after
`transferSubscription(s, E2, sendInitialValues)`: `notifyTransfer` has
emitted the transfer status change toward E1, s is absent from E1's map
and present in E2's with `s.publishEngine = E2`, the lifetime counter has
been reset once, and `resendInitialValues` ran exactly once iff
`sendInitialValues`. -/
theorem c8_transfer (w : TransferWorld) (srcId destId : Nat)
    (sendInitialValues : Bool)
    (hsrc : w.sub.publishEngine = some srcId)
    (hne : destId ≠ srcId)
    (hsrcMem : ∃ m, w.maps.find? (fun m => m.1 == srcId) = some m)
    (hdstMem : ∃ m, w.maps.find? (fun m => m.1 == destId) = some m) :
    (w.transferSubscription destId sendInitialValues).sub.notifyTransferEvents
      = w.sub.notifyTransferEvents ++ [some srcId] ∧
    (w.transferSubscription destId sendInitialValues).sub.publishEngine
      = some destId ∧
    w.sub.id ∉ (w.transferSubscription destId sendInitialValues).mapOf srcId ∧
    w.sub.id ∈ (w.transferSubscription destId sendInitialValues).mapOf destId ∧
    (w.transferSubscription destId sendInitialValues).sub.lifeTimeResetCount
      = w.sub.lifeTimeResetCount + 1 ∧
    (w.transferSubscription destId sendInitialValues).sub.resendInitialValuesCount
      = w.sub.resendInitialValuesCount + (if sendInitialValues then 1 else 0) := by
  set ids1 : List Nat := (w.mapOf srcId).filter (fun i => i != w.sub.id) with hids1
  set wS : TransferWorld := w.setMap srcId ids1 with hwS
  set ids2 : List Nat := wS.mapOf destId ++ [w.sub.id] with hids2
  set wD : TransferWorld := wS.setMap destId ids2 with hwD
  rw [transferSubscription_eq w destId srcId sendInitialValues hsrc]
  rw [← hids1, ← hwS, ← hids2, ← hwD]
  refine ⟨rfl, rfl, ?_, ?_, rfl, rfl⟩
  · show w.sub.id ∉ wD.mapOf srcId
    rw [hwD, mapOf_setMap_other wS destId srcId ids2 (Ne.symm hne)]
    rw [hwS, mapOf_setMap_same w srcId ids1 hsrcMem]
    rw [hids1]
    intro hmem
    have := (List.mem_filter.1 hmem).2
    simp at this
  · show w.sub.id ∈ wD.mapOf destId
    have hm2 : ∃ m, wS.maps.find? (fun m => m.1 == destId) = some m := by
      rw [hwS, find?_setMap_other w srcId destId ids1 hne]
      exact hdstMem
    rw [hwD, mapOf_setMap_same wS destId ids2 hm2]
    rw [hids2]
    exact List.mem_append.2 (Or.inr (List.mem_singleton.2 rfl))

/-- Concrete instantiation of the amended transfer theorem on the
two-engine fixture: subscription 7 moves from engine 1 to engine 2. -/
theorem c8_witness :
    cex8World.sub.publishEngine = some 1 ∧
    (2 : Nat) ≠ 1 ∧
    (cex8World.transferSubscription 2 true).sub.publishEngine = some 2 ∧
    cex8World.sub.id ∉ (cex8World.transferSubscription 2 true).mapOf 1 ∧
    cex8World.sub.id ∈ (cex8World.transferSubscription 2 true).mapOf 2 := by
  have h := c8_transfer cex8World 1 2 true rfl (by decide)
    ⟨(1, [7]), by decide⟩ ⟨(2, []), by decide⟩
  exact ⟨rfl, by decide, h.2.1, h.2.2.1, h.2.2.2.1⟩

end PublishEngine
